import Mathlib

/-!
# Strelka somatic indel VCF writer: embedding and verified properties

Shallow embedding of `src/c++/lib/applications/strelka/SomaticIndelVcfWriter.cpp`
(`write_vcf_isri_tiers`, `writeSomaticIndelVcfGrid`, `SomaticIndelVcfWriter::cacheIndel`,
`SomaticIndelVcfWriter::addIndelWindowData`).

Conventions of the embedding

* `unsigned` values are `Nat`; where the source does arithmetic on them the result is
  reduced `% 2^32`.  `pos_t` and the phred qualities are `Int`.
* A C++ `double` is a `Dbl`: a rational number or one of the IEEE special values.
  Rounding of finite results is not modelled; comparisons and the special values are.
* The output stream is the `String` written so far.  A record is first produced as the
  list of `<<` operands (`Tok`), which keeps literals of the source apart from data, and
  then rendered to text.
* Helpers whose bodies are outside the two source files (`calculateBCNoise`, the scoring
  model singleton, `calculateVQSRFeatures`, number formatting, ...) are the fields of
  `Externals`.
-/

namespace Strelka

/-! ## Doubles -/

/-- Value of a C++ `double`, with finite values taken as exact rationals. -/
inductive Dbl
  | fin (q : ℚ)
  | pinf
  | ninf
  | nan
  deriving DecidableEq

namespace Dbl

/-- Conversion `unsigned -> double`. -/
def ofNat (n : Nat) : Dbl := fin (n : ℚ)

/-- The literal `0`. -/
def zero : Dbl := fin 0

/-- The literal `1.0`. -/
def one : Dbl := fin 1

/-- Operator `<` on doubles: false as soon as one side is NaN. -/
def lt : Dbl → Dbl → Bool
  | nan, _ => false
  | _, nan => false
  | fin a, fin b => decide (a < b)
  | fin _, pinf => true
  | fin _, ninf => false
  | pinf, _ => false
  | ninf, ninf => false
  | ninf, _ => true

/-- Operator `>` on doubles. -/
def gt (a b : Dbl) : Bool := lt b a

/-- Operator `>=` on doubles: false as soon as one side is NaN. -/
def ge : Dbl → Dbl → Bool
  | nan, _ => false
  | _, nan => false
  | fin a, fin b => decide (b ≤ a)
  | fin _, pinf => false
  | fin _, ninf => true
  | pinf, _ => true
  | ninf, ninf => true
  | ninf, _ => false

/-- Unary minus. -/
def neg : Dbl → Dbl
  | fin a => fin (-a)
  | pinf => ninf
  | ninf => pinf
  | nan => nan

/-- Operator `+` on doubles. -/
def add : Dbl → Dbl → Dbl
  | nan, _ => nan
  | _, nan => nan
  | fin a, fin b => fin (a + b)
  | pinf, ninf => nan
  | ninf, pinf => nan
  | pinf, _ => pinf
  | ninf, _ => ninf
  | fin _, pinf => pinf
  | fin _, ninf => ninf

/-- Operator `-` on doubles. -/
def sub (a b : Dbl) : Dbl := add a (neg b)

/-- The infinity that has the sign of `s`, and NaN when `s` is 0. -/
def infOfSign (s : ℚ) : Dbl :=
  if 0 < s then pinf else if s < 0 then ninf else nan

/-- Sign of a double as a rational in `{-1, 0, 1}` (NaN is given 0). -/
def sign : Dbl → ℚ
  | fin a => if 0 < a then 1 else if a < 0 then -1 else 0
  | pinf => 1
  | ninf => -1
  | nan => 0

/-- Operator `*` on doubles. -/
def mul : Dbl → Dbl → Dbl
  | nan, _ => nan
  | _, nan => nan
  | fin a, fin b => fin (a * b)
  | a, b => infOfSign (sign a * sign b)

/-- Operator `/` on doubles; a zero divisor is the positive zero. -/
def div : Dbl → Dbl → Dbl
  | nan, _ => nan
  | _, nan => nan
  | fin a, fin b => if b = 0 then infOfSign a else fin (a / b)
  | fin _, _ => fin 0
  | pinf, fin b => if b < 0 then ninf else pinf
  | ninf, fin b => if b < 0 then pinf else ninf
  | _, _ => nan

end Dbl

/-! ## Data model -/

/-- Content of an `unsigned` after an arithmetic operation. -/
def u32 (n : Nat) : Nat := n % 2 ^ 32

/-- Enumeration `NTYPE::index_t`.  The source names the enumerator `REF` only. -/
inductive NTYPE
  | REF
  | other (i : Nat)
  deriving DecidableEq

/-- Enumeration `INDEL::index_t`.  The source names `BP_LEFT` and `BP_RIGHT` only. -/
inductive INDEL
  | BP_LEFT
  | BP_RIGHT
  | other (i : Nat)
  deriving DecidableEq

/-- Enumerators of `STRELKA_VCF_FILTERS` that the writer sets. -/
inductive STRELKA_VCF_FILTERS
  | HighDepth
  | IndelBCNoise
  | QSI_ref
  | Nonref
  | LowQscore
  deriving DecidableEq

/-- Modelled from the spec: WindowAverageSet, the filtered and the total basecall count of
a flank window.  The writer only hands it on to `calculateBCNoise`. -/
structure win_avg_set where
  filtered : Nat
  total : Nat

/-- Fields of `starling_indel_sample_report_info` read by the writer. -/
structure starling_indel_sample_report_info where
  depth : Nat
  n_q30_ref_reads : Nat
  n_q30_alt_reads : Nat
  n_q30_indel_reads : Nat
  n_other_reads : Nat
  mean_mapq : Dbl
  mapq0_frac : Dbl
  n_mapq : Nat
  readpos_ranksum_u_stat : Dbl

/-- Fields of `starling_indel_report_info` read by the writer; `is_repeat_unit` is the
result of the accessor `is_repeat_unit()`. -/
structure starling_indel_report_info where
  vcf_ref_seq : String
  vcf_indel_seq : String
  is_repeat_unit : Bool
  repeat_unit : String
  ref_repeat_count : Nat
  indel_repeat_count : Nat
  ihpol : Nat
  it : INDEL

/-- Type `somatic_indel_call::result_set`. -/
structure result_set where
  ntype : NTYPE
  sindel_qphred : Int
  sindel_from_ntype_qphred : Int
  max_gt : Nat
  is_overlap : Bool

/-- Type `somatic_indel_call`. -/
structure somatic_indel_call where
  rs : result_set
  sindel_tier : Nat
  sindel_from_ntype_tier : Nat

/-- Type `SomaticIndelVcfInfo`; `nisri0`, `nisri1` stand for `nisri[0]`, `nisri[1]`. -/
structure SomaticIndelVcfInfo where
  sindel : somatic_indel_call
  iri : starling_indel_report_info
  nisri0 : starling_indel_sample_report_info
  nisri1 : starling_indel_sample_report_info
  tisri0 : starling_indel_sample_report_info
  tisri1 : starling_indel_sample_report_info

/-- Fields of `strelka_options` (with its member `sfilter`) read by the writer. -/
structure strelka_options where
  bam_seq_name : String
  is_use_indel_empirical_scoring : Bool
  indelMaxWindowFilteredBasecallFrac : Dbl
  sindelQuality_LowerBound : Int
  indelRegionFlankSize : Nat

/-- Fields of `strelka_deriv_options::sfilter` read by the writer; `is_max_depth` is the
result of the accessor `is_max_depth()`. -/
structure strelka_deriv_options where
  is_max_depth : Bool
  max_depth : Dbl

/-- Modelled from the spec: `strelka_shared_modifiers_indel`, a filter set that only
grows, the optional calibrated score and the feature vector. -/
structure strelka_shared_modifiers_indel where
  filters : STRELKA_VCF_FILTERS → Bool
  isQscore : Bool
  Qscore : Dbl
  features : List Dbl

namespace strelka_shared_modifiers_indel

/-- Modelled from the spec: a freshly constructed modifier object, with no filter set and
the score not marked present. -/
def init : strelka_shared_modifiers_indel :=
  { filters := fun _ => false, isQscore := false, Qscore := Dbl.zero, features := [] }

/-- Modelled from the spec: `set_filter`, which adds one filter to the set. -/
def set_filter (smod : strelka_shared_modifiers_indel) (i : STRELKA_VCF_FILTERS) :
    strelka_shared_modifiers_indel :=
  { smod with filters := fun j => if j = i then true else smod.filters j }

end strelka_shared_modifiers_indel

/-- Collaborators of the writer whose code is outside the two source files. -/
structure Externals where
  /-- `calculateBCNoise(was)` -/
  calculateBCNoise : win_avg_set → Dbl
  /-- `calculateIndelAF(isri)` -/
  calculateIndelAF : starling_indel_sample_report_info → Dbl
  /-- `calculateIndelOF(isri)` -/
  calculateIndelOF : starling_indel_sample_report_info → Dbl
  /-- `calculateSOR(isri)` -/
  calculateSOR : starling_indel_sample_report_info → Dbl
  /-- `calculateFS(isri)` -/
  calculateFS : starling_indel_sample_report_info → Dbl
  /-- `calculateBSA(isri)` -/
  calculateBSA : starling_indel_sample_report_info → Dbl
  /-- the feature vector that `calculateVQSRFeatures` stores in `smod` -/
  calculateVQSRFeatures : SomaticIndelVcfInfo → win_avg_set → win_avg_set →
    strelka_options → strelka_deriv_options → List Dbl
  /-- `scoring_models::Instance().isVariantScoringInit()` -/
  isVariantScoringInit : Bool
  /-- `scoring_models::Instance().score_variant(features, VARIATION_NODE_TYPE::INDEL)` -/
  score_variant : List Dbl → Dbl
  /-- `scoring_models::Instance().score_threshold(VARIATION_NODE_TYPE::INDEL)` -/
  score_threshold : Dbl
  /-- `NTYPE::label` -/
  NTYPE_label : NTYPE → String
  /-- text of a double written under `std::fixed << std::setprecision(prec)` -/
  fmtFixed : Nat → Dbl → String
  /-- text of `smod.write_features(os)` -/
  write_features : List Dbl → String
  /-- `STRELKA_VCF_FILTERS::get_label` -/
  filter_label : STRELKA_VCF_FILTERS → String

/-! ## Output stream -/

/-- One operand of `operator<<` in the writer. -/
inductive Tok
  /-- a string or character literal of the source -/
  | lit (s : String)
  /-- a `std::string` value -/
  | str (s : String)
  /-- an `unsigned` value -/
  | uns (n : Nat)
  /-- a signed integer value -/
  | int (i : Int)
  /-- a `double` written under `std::fixed << std::setprecision(prec)` -/
  | dbl (prec : Nat) (d : Dbl)
  /-- the call `smod.write_filters(os)` -/
  | filters (smod : strelka_shared_modifiers_indel)
  /-- the call `smod.write_features(os)` -/
  | features (smod : strelka_shared_modifiers_indel)

/-- Order in which `write_filters` visits the filters. -/
def filterOrder : List STRELKA_VCF_FILTERS :=
  [.HighDepth, .IndelBCNoise, .QSI_ref, .Nonref, .LowQscore]

/-- Modelled from the spec: `write_filters`, which reports `PASS` iff the filter set is
empty and otherwise the labels of the filters that are set, joined by `;`. -/
def write_filters (X : Externals) (smod : strelka_shared_modifiers_indel) : String :=
  match filterOrder.filter smod.filters with
  | [] => "PASS"
  | fs => ";".intercalate (fs.map X.filter_label)

/-- Text that one operand adds to the stream. -/
def Tok.render (X : Externals) : Tok → String
  | .lit s => s
  | .str s => s
  | .uns n => toString n
  | .int i => toString i
  | .dbl prec d => X.fmtFixed prec d
  | .filters smod => write_filters X smod
  | .features smod => X.write_features smod.features

/-- Text of a sequence of operands. -/
def renderToks (X : Externals) (ts : List Tok) : String :=
  String.join (ts.map (Tok.render X))

/-! ## `write_vcf_isri_tiers` (lines 41-75) -/

/-- Operands written by `write_vcf_isri_tiers(isri1, isri2, was, os)`. -/
def write_vcf_isri_tiers (X : Externals)
    (isri1 isri2 : starling_indel_sample_report_info) (was : win_avg_set) : List Tok :=
  [ .uns isri1.depth,
    .lit ":",
    .uns isri2.depth,
    .lit ":",
    .uns (u32 (isri1.n_q30_ref_reads + isri1.n_q30_alt_reads)), .lit ",",
    .uns (u32 (isri2.n_q30_ref_reads + isri2.n_q30_alt_reads)),
    .lit ":",
    .uns isri1.n_q30_indel_reads, .lit ",",
    .uns isri2.n_q30_indel_reads,
    .lit ":",
    .uns isri1.n_other_reads, .lit ",",
    .uns isri2.n_other_reads,
    .lit ":", .dbl 3 (X.calculateIndelAF isri1),
    .lit ":", .dbl 3 (X.calculateIndelOF isri1),
    .lit ":", .dbl 3 (X.calculateSOR isri1),
    .lit ":", .dbl 3 (X.calculateFS isri1),
    .lit ":", .dbl 3 (X.calculateBSA isri1),
    .lit ":", .dbl 3 isri1.readpos_ranksum_u_stat,
    .lit ":", .dbl 3 (X.calculateBCNoise was) ]

/-! ## `writeSomaticIndelVcfGrid` (lines 79-240) -/

/-- Lines 92-101: the high depth filter. -/
def smodDepth (dopt : strelka_deriv_options) (siInfo : SomaticIndelVcfInfo) :
    strelka_shared_modifiers_indel :=
  let smod := strelka_shared_modifiers_indel.init
  if dopt.is_max_depth then
    let depth := siInfo.nisri0.depth
    if Dbl.gt (Dbl.ofNat depth) dopt.max_depth then
      smod.set_filter .HighDepth
    else smod
  else smod

/-- Lines 103-117: the features and the calibrated score. -/
def smodScore (X : Externals) (opt : strelka_options) (dopt : strelka_deriv_options)
    (siInfo : SomaticIndelVcfInfo) (wasNormal wasTumor : win_avg_set)
    (smod : strelka_shared_modifiers_indel) : strelka_shared_modifiers_indel :=
  let smod := { smod with
    features := X.calculateVQSRFeatures siInfo wasNormal wasTumor opt dopt }
  if X.isVariantScoringInit then
    { smod with
      Qscore := Dbl.sub Dbl.one (X.score_variant smod.features)
      isQscore := true }
  else
    { smod with Qscore := Dbl.zero }

/-- Lines 119-147: the filters of the legacy and of the empirical mode. -/
def smodMode (X : Externals) (opt : strelka_options) (siInfo : SomaticIndelVcfInfo)
    (wasNormal wasTumor : win_avg_set)
    (smod : strelka_shared_modifiers_indel) : strelka_shared_modifiers_indel :=
  let rs := siInfo.sindel.rs
  let is_use_empirical_scoring := opt.is_use_indel_empirical_scoring
  if !is_use_empirical_scoring then
    let normalWinFrac := X.calculateBCNoise wasNormal
    let tumorWinFrac := X.calculateBCNoise wasTumor
    let smod :=
      if Dbl.ge normalWinFrac opt.indelMaxWindowFilteredBasecallFrac ||
         Dbl.ge tumorWinFrac opt.indelMaxWindowFilteredBasecallFrac then
        smod.set_filter .IndelBCNoise
      else smod
    if rs.ntype ≠ NTYPE.REF ||
       decide (rs.sindel_from_ntype_qphred < opt.sindelQuality_LowerBound) then
      smod.set_filter .QSI_ref
    else smod
  else
    let smod :=
      if rs.ntype ≠ NTYPE.REF then smod.set_filter .Nonref else smod
    if Dbl.lt smod.Qscore X.score_threshold then
      smod.set_filter .LowQscore
    else smod

/-- Value of `smod` when line 149 is reached. -/
def writeSomaticIndelVcfGrid_smod (X : Externals) (opt : strelka_options)
    (dopt : strelka_deriv_options) (siInfo : SomaticIndelVcfInfo)
    (wasNormal wasTumor : win_avg_set) : strelka_shared_modifiers_indel :=
  smodMode X opt siInfo wasNormal wasTumor
    (smodScore X opt dopt siInfo wasNormal wasTumor (smodDepth dopt siInfo))

/-- Lines 190-200: the aggregate `mean_mapq`. -/
def mean_mapq (siInfo : SomaticIndelVcfInfo) : Dbl :=
  Dbl.div (Dbl.add siInfo.nisri1.mean_mapq siInfo.tisri1.mean_mapq) (Dbl.fin 2)

/-- Lines 190-200: the aggregate `mean_mapq0`. -/
def mean_mapq0 (siInfo : SomaticIndelVcfInfo) : Dbl :=
  Dbl.div
    (Dbl.add (Dbl.mul siInfo.nisri1.mapq0_frac (Dbl.ofNat siInfo.nisri1.n_mapq))
             (Dbl.mul siInfo.tisri1.mapq0_frac (Dbl.ofNat siInfo.tisri1.n_mapq)))
    (Dbl.ofNat (u32 (siInfo.nisri1.n_mapq + siInfo.tisri1.n_mapq)))

/-- Lines 149-239: the operands written for one call, given the final `smod`. -/
def gridToks (X : Externals) (opt : strelka_options) (pos : Int)
    (siInfo : SomaticIndelVcfInfo) (wasNormal wasTumor : win_avg_set)
    (smod : strelka_shared_modifiers_indel) : List Tok :=
  let rs := siInfo.sindel.rs
  let output_pos : Int := pos + 1
  [ .str opt.bam_seq_name,
    .lit "\t", .int output_pos,
    .lit "\t", .lit ".",
    .lit "\t", .str siInfo.iri.vcf_ref_seq,
    .lit "\t", .str siInfo.iri.vcf_indel_seq,
    .lit "\t", .lit ".",
    .lit "\t", .filters smod,
    .lit "\t", .lit "SOMATIC" ]
  ++ (if smod.isQscore then [.lit ";EQSI=", .dbl 4 smod.Qscore] else [])
  ++ [ .lit ";QSI=", .int rs.sindel_qphred,
       .lit ";TQSI=", .uns (u32 (siInfo.sindel.sindel_tier + 1)),
       .lit ";NT=", .str (X.NTYPE_label rs.ntype),
       .lit ";QSI_NT=", .int rs.sindel_from_ntype_qphred,
       .lit ";TQSI_NT=", .uns (u32 (siInfo.sindel.sindel_from_ntype_tier + 1)),
       .lit ";SGT=", .uns rs.max_gt,
       .lit ";MQ=", .dbl 2 (mean_mapq siInfo),
       .lit ";MQ0=", .dbl 2 (mean_mapq0 siInfo) ]
  ++ (if siInfo.iri.is_repeat_unit then
        [ .lit ";RU=", .str siInfo.iri.repeat_unit,
          .lit ";RC=", .uns siInfo.iri.ref_repeat_count,
          .lit ";IC=", .uns siInfo.iri.indel_repeat_count ]
      else [])
  ++ [ .lit ";IHP=", .uns siInfo.iri.ihpol ]
  ++ (if opt.is_use_indel_empirical_scoring then [.lit ";ESF=", .features smod] else [])
  ++ (if siInfo.iri.it = INDEL.BP_LEFT ∨ siInfo.iri.it = INDEL.BP_RIGHT then
        [.lit ";SVTYPE=BND"] else [])
  ++ (if rs.is_overlap then [.lit ";OVERLAP"] else [])
  ++ [ .lit "\t", .lit "DP:DP2:TAR:TIR:TOR:AF:OF:SOR:FS:BSA:RR",
       .lit ":BCN", .uns opt.indelRegionFlankSize,
       .lit "\t" ]
  ++ write_vcf_isri_tiers X siInfo.nisri0 siInfo.nisri1 wasNormal
  ++ [ .lit "\t" ]
  ++ write_vcf_isri_tiers X siInfo.tisri0 siInfo.tisri1 wasTumor
  ++ [ .lit "\n" ]

/-- Operands written by one call of `writeSomaticIndelVcfGrid`. -/
def writeSomaticIndelVcfGrid_toks (X : Externals) (opt : strelka_options)
    (dopt : strelka_deriv_options) (pos : Int) (siInfo : SomaticIndelVcfInfo)
    (wasNormal wasTumor : win_avg_set) : List Tok :=
  gridToks X opt pos siInfo wasNormal wasTumor
    (writeSomaticIndelVcfGrid_smod X opt dopt siInfo wasNormal wasTumor)

/-- Text of the record written by one call of `writeSomaticIndelVcfGrid`. -/
def record (X : Externals) (opt : strelka_options) (dopt : strelka_deriv_options)
    (pos : Int) (siInfo : SomaticIndelVcfInfo) (wasNormal wasTumor : win_avg_set) : String :=
  renderToks X (writeSomaticIndelVcfGrid_toks X opt dopt pos siInfo wasNormal wasTumor)

/-- Function `writeSomaticIndelVcfGrid(opt, dopt, pos, siInfo, wasNormal, wasTumor, os)`:
the stream after the call. -/
def writeSomaticIndelVcfGrid (X : Externals) (opt : strelka_options)
    (dopt : strelka_deriv_options) (pos : Int) (siInfo : SomaticIndelVcfInfo)
    (wasNormal wasTumor : win_avg_set) (os : String) : String :=
  os ++ record X opt dopt pos siInfo wasNormal wasTumor

/-! ## `SomaticIndelVcfWriter` (lines 243-277) -/

/-- Member `_data`, a `std::map` from position to the vector of cached calls. -/
abbrev IndelCache := Int → Option (List SomaticIndelVcfInfo)

/-- State of a `SomaticIndelVcfWriter`: options, the stream behind `_osptr`, the cache. -/
structure SomaticIndelVcfWriter where
  _opt : strelka_options
  _dopt : strelka_deriv_options
  os : String
  _data : IndelCache

/-- Result of a member function that starts with an `assert`: it returns with the new
state, or the assertion fails in the state reached so far. -/
inductive Outcome
  | returned (w : SomaticIndelVcfWriter)
  | assertFailed (w : SomaticIndelVcfWriter)

/-- Modelled from the spec: `testPos(pos)`, declared in the header, tells whether the
cache has an entry for `pos`. -/
def testPos (w : SomaticIndelVcfWriter) (pos : Int) : Bool :=
  (w._data pos).isSome

/-- Expression `_data[pos]`: the vector at `pos`, empty and newly inserted when absent. -/
def IndelCache.index (d : IndelCache) (pos : Int) : List SomaticIndelVcfInfo × IndelCache :=
  match d pos with
  | some v => (v, d)
  | none => ([], fun p => if p = pos then some [] else d p)

/-- Assignment to the vector that `_data[pos]` refers to. -/
def IndelCache.store (d : IndelCache) (pos : Int) (v : List SomaticIndelVcfInfo) :
    IndelCache :=
  fun p => if p = pos then some v else d p

/-- Call `_data.erase(pos)`. -/
def IndelCache.erase (d : IndelCache) (pos : Int) : IndelCache :=
  fun p => if p = pos then none else d p

/-- Member `cacheIndel(pos, siInfo)`: `_data[pos].push_back(siInfo)`. -/
def cacheIndel (w : SomaticIndelVcfWriter) (pos : Int) (siInfo : SomaticIndelVcfInfo) :
    SomaticIndelVcfWriter :=
  let (v, d) := w._data.index pos
  { w with _data := d.store pos (v ++ [siInfo]) }

/-- Member `addIndelWindowData(pos, wasNormal, wasTumor)`. -/
def addIndelWindowData (X : Externals) (w : SomaticIndelVcfWriter) (pos : Int)
    (wasNormal wasTumor : win_avg_set) : Outcome :=
  if testPos w pos then
    let (v, d) := w._data.index pos
    let os := v.foldl
      (fun os indelInfo =>
        writeSomaticIndelVcfGrid X w._opt w._dopt pos indelInfo wasNormal wasTumor os)
      w.os
    .returned { w with os := os, _data := d.erase pos }
  else
    .assertFailed w

/-- Successive calls `cacheIndel(pos, c)` for the calls `c` of a list, in order. -/
def cacheIndels (w : SomaticIndelVcfWriter) (pos : Int) (cs : List SomaticIndelVcfInfo) :
    SomaticIndelVcfWriter :=
  cs.foldl (fun w c => cacheIndel w pos c) w

/-- State of the writer when the operation ended. -/
def Outcome.state : Outcome → SomaticIndelVcfWriter
  | .returned w => w
  | .assertFailed w => w

/-- Whether the operation ended in a failed assertion. -/
def Outcome.failed : Outcome → Bool
  | .returned _ => false
  | .assertFailed _ => true

/-- Concatenation `s1 ++ ... ++ sn` of a list of texts. -/
def concatText (l : List String) : String :=
  l.foldr (fun s acc => s ++ acc) ""

/-- Calls cached at `pos`, in insertion order; none when the cache has no entry. -/
def cachedAt (w : SomaticIndelVcfWriter) (pos : Int) : List SomaticIndelVcfInfo :=
  (w._data pos).getD []

/-- Modelled from the spec: a newly constructed writer, whose cache has no entry. -/
def SomaticIndelVcfWriter.new (opt : strelka_options) (dopt : strelka_deriv_options)
    (os : String) : SomaticIndelVcfWriter :=
  { _opt := opt, _dopt := dopt, os := os, _data := fun _ => none }

/-- States of a writer that the two member functions produce from a new writer. -/
inductive Reachable (X : Externals) : SomaticIndelVcfWriter → Prop
  | new (opt : strelka_options) (dopt : strelka_deriv_options) (os : String) :
      Reachable X (SomaticIndelVcfWriter.new opt dopt os)
  | cacheIndel {w : SomaticIndelVcfWriter} (pos : Int) (siInfo : SomaticIndelVcfInfo) :
      Reachable X w → Reachable X (cacheIndel w pos siInfo)
  | addIndelWindowData {w w' : SomaticIndelVcfWriter} (pos : Int)
      (wasNormal wasTumor : win_avg_set) :
      Reachable X w → addIndelWindowData X w pos wasNormal wasTumor = Outcome.returned w' →
      Reachable X w'

/-- One call of a member function of the writer. -/
inductive CacheOp
  | cacheIndel (pos : Int) (siInfo : SomaticIndelVcfInfo)
  | addIndelWindowData (pos : Int) (wasNormal wasTumor : win_avg_set)

/-- Whether the call is `addIndelWindowData(q, ...)`. -/
def CacheOp.resolves (q : Int) : CacheOp → Bool
  | .cacheIndel _ _ => false
  | .addIndelWindowData p _ _ => decide (p = q)

/-- The calls of a list made one after the other on a writer; a failed assertion ends
the run. -/
def runOps (X : Externals) (w : SomaticIndelVcfWriter) : List CacheOp → Outcome
  | [] => Outcome.returned w
  | CacheOp.cacheIndel p c :: ops => runOps X (cacheIndel w p c) ops
  | CacheOp.addIndelWindowData p wasNormal wasTumor :: ops =>
    match addIndelWindowData X w p wasNormal wasTumor with
    | Outcome.returned w' => runOps X w' ops
    | Outcome.assertFailed w' => Outcome.assertFailed w'

/-! ## Example inputs -/

/-- A sample record with the given tier depth and no reads. -/
def exIsri (depth : Nat) : starling_indel_sample_report_info :=
  { depth := depth, n_q30_ref_reads := 0, n_q30_alt_reads := 0, n_q30_indel_reads := 0,
    n_other_reads := 0, mean_mapq := Dbl.fin 60, mapq0_frac := Dbl.fin 0, n_mapq := depth,
    readpos_ranksum_u_stat := Dbl.fin 0 }

/-- A call with the given null type, null-type quality and normal tier1 depth. -/
def exInfo (ntype : NTYPE) (qphred : Int) (depth : Nat) : SomaticIndelVcfInfo :=
  { sindel :=
      { rs := { ntype := ntype, sindel_qphred := 50, sindel_from_ntype_qphred := qphred,
                max_gt := 1, is_overlap := false },
        sindel_tier := 0, sindel_from_ntype_tier := 0 },
    iri := { vcf_ref_seq := "AT", vcf_indel_seq := "A", is_repeat_unit := false,
             repeat_unit := "", ref_repeat_count := 0, indel_repeat_count := 0,
             ihpol := 1, it := INDEL.other 2 },
    nisri0 := exIsri depth, nisri1 := exIsri depth,
    tisri0 := exIsri depth, tisri1 := exIsri depth }

/-- Options with the given scoring mode, noise threshold 3/10 and quality bound 30. -/
def exOpt (empirical : Bool) : strelka_options :=
  { bam_seq_name := "chr1", is_use_indel_empirical_scoring := empirical,
    indelMaxWindowFilteredBasecallFrac := Dbl.fin (3 / 10),
    sindelQuality_LowerBound := 30, indelRegionFlankSize := 50 }

/-- Derived options with the depth filter enabled at threshold 30. -/
def exDopt : strelka_deriv_options :=
  { is_max_depth := true, max_depth := Dbl.fin 30 }

/-- Collaborators for the examples: the noise fraction is `filtered / total`, the scoring
model is initialised as asked, gives native score `score` and has threshold 1/2. -/
def exX (initialised : Bool) (score : ℚ) : Externals :=
  { calculateBCNoise := fun was => Dbl.div (Dbl.ofNat was.filtered) (Dbl.ofNat was.total),
    calculateIndelAF := fun _ => Dbl.fin 0,
    calculateIndelOF := fun _ => Dbl.fin 0,
    calculateSOR := fun _ => Dbl.fin 0,
    calculateFS := fun _ => Dbl.fin 0,
    calculateBSA := fun _ => Dbl.fin 0,
    calculateVQSRFeatures := fun _ _ _ _ _ => [],
    isVariantScoringInit := initialised,
    score_variant := fun _ => Dbl.fin score,
    score_threshold := Dbl.fin (1 / 2),
    NTYPE_label := fun t => match t with
      | .REF => "ref"
      | .other _ => "nonref",
    fmtFixed := fun _ _ => "0",
    write_features := fun _ => "",
    filter_label := fun f => match f with
      | .HighDepth => "HighDepth"
      | .IndelBCNoise => "IndelBCNoise"
      | .QSI_ref => "QSI_ref"
      | .Nonref => "Nonref"
      | .LowQscore => "LowQscore" }

/-- A window with 1 filtered basecall out of 10. -/
def exQuiet : win_avg_set := { filtered := 1, total := 10 }

/-- A window with 3 filtered basecalls out of 10. -/
def exNoisy : win_avg_set := { filtered := 3, total := 10 }

/-- A writer for the examples, in legacy mode, with the text `os` already written. -/
def exWriter (os : String) : SomaticIndelVcfWriter :=
  SomaticIndelVcfWriter.new (exOpt false) exDopt os

/-! ## `CleanedPileup` (PileupCleaner.hh, lines 26-108) -/

/-- Operator `-` on two `unsigned` values. -/
def usub32 (a b : Nat) : Nat := (a + (2 ^ 32 - b % 2 ^ 32)) % 2 ^ 32

/-- Type `snp_pos_info`, of which the header uses the vector `calls`; the type of one
call is a parameter. -/
structure snp_pos_info (Call : Type) where
  calls : List Call

/-- Data members of `CleanedPileup`.  The member `_epi` only refers to the two members
before it and is left out. -/
structure CleanedPileup (Call : Type) where
  _rawPileupPtr : Option (snp_pos_info Call)
  _n_raw_calls : Nat
  _cleanedPileup : snp_pos_info Call
  _dependentErrorProb : List Dbl

namespace CleanedPileup

variable {Call : Type}

/-- Constructor `CleanedPileup()` with the default member initialisers. -/
def new : CleanedPileup Call :=
  { _rawPileupPtr := none, _n_raw_calls := 0, _cleanedPileup := { calls := [] },
    _dependentErrorProb := [] }

/-- Member `n_calls()`. -/
def n_calls (cpi : CleanedPileup Call) : Nat :=
  cpi._n_raw_calls

/-- Member `n_used_calls()`: `calls.size()` returned as `unsigned`. -/
def n_used_calls (cpi : CleanedPileup Call) : Nat :=
  u32 cpi._cleanedPileup.calls.length

/-- Member `n_unused_calls()`. -/
def n_unused_calls (cpi : CleanedPileup Call) : Nat :=
  usub32 cpi.n_calls cpi.n_used_calls

/-- Member `clear()`. -/
def clear (_cpi : CleanedPileup Call) : CleanedPileup Call :=
  { _rawPileupPtr := none, _n_raw_calls := 0, _cleanedPileup := { calls := [] },
    _dependentErrorProb := [] }

end CleanedPileup

/-- A cleaned pileup that keeps 3 of 5 raw calls. -/
def exPileup : CleanedPileup Nat :=
  { _rawPileupPtr := some { calls := [1, 2, 3, 4, 5] }, _n_raw_calls := 5,
    _cleanedPileup := { calls := [1, 3, 5] }, _dependentErrorProb := [] }

/-- A call whose two tier2 records have no mapping-quality observation. -/
def exInfoNoMapq : SomaticIndelVcfInfo :=
  { exInfo NTYPE.REF 40 0 with
    nisri1 := { exIsri 0 with mean_mapq := Dbl.fin 0, n_mapq := 0 },
    tisri1 := { exIsri 0 with mean_mapq := Dbl.fin 0, n_mapq := 0 } }

/-! ## Columns of the record -/

/-- Lines 149-170: the operands of the columns CHROM, POS, ID, REF, ALT, QUAL and FILTER,
with the separators between them. -/
def headToks (opt : strelka_options) (pos : Int) (siInfo : SomaticIndelVcfInfo)
    (smod : strelka_shared_modifiers_indel) : List Tok :=
  [ .str opt.bam_seq_name,
    .lit "\t", .int (pos + 1),
    .lit "\t", .lit ".",
    .lit "\t", .str siInfo.iri.vcf_ref_seq,
    .lit "\t", .str siInfo.iri.vcf_indel_seq,
    .lit "\t", .lit ".",
    .lit "\t", .filters smod ]

/-- Lines 201-206: the operands of the repeat fields. -/
def repeatToks (siInfo : SomaticIndelVcfInfo) : List Tok :=
  if siInfo.iri.is_repeat_unit then
    [ .lit ";RU=", .str siInfo.iri.repeat_unit,
      .lit ";RC=", .uns siInfo.iri.ref_repeat_count,
      .lit ";IC=", .uns siInfo.iri.indel_repeat_count ]
  else []

/-- Lines 172-224: the operands of the INFO column. -/
def infoToks (X : Externals) (opt : strelka_options) (siInfo : SomaticIndelVcfInfo)
    (smod : strelka_shared_modifiers_indel) : List Tok :=
  [ .lit "SOMATIC" ]
  ++ (if smod.isQscore then [.lit ";EQSI=", .dbl 4 smod.Qscore] else [])
  ++ [ .lit ";QSI=", .int siInfo.sindel.rs.sindel_qphred,
       .lit ";TQSI=", .uns (u32 (siInfo.sindel.sindel_tier + 1)),
       .lit ";NT=", .str (X.NTYPE_label siInfo.sindel.rs.ntype),
       .lit ";QSI_NT=", .int siInfo.sindel.rs.sindel_from_ntype_qphred,
       .lit ";TQSI_NT=", .uns (u32 (siInfo.sindel.sindel_from_ntype_tier + 1)),
       .lit ";SGT=", .uns siInfo.sindel.rs.max_gt,
       .lit ";MQ=", .dbl 2 (mean_mapq siInfo),
       .lit ";MQ0=", .dbl 2 (mean_mapq0 siInfo) ]
  ++ repeatToks siInfo
  ++ [ .lit ";IHP=", .uns siInfo.iri.ihpol ]
  ++ (if opt.is_use_indel_empirical_scoring then [.lit ";ESF=", .features smod] else [])
  ++ (if siInfo.iri.it = INDEL.BP_LEFT ∨ siInfo.iri.it = INDEL.BP_RIGHT then
        [.lit ";SVTYPE=BND"] else [])
  ++ (if siInfo.sindel.rs.is_overlap then [.lit ";OVERLAP"] else [])

/-- Lines 227-229: the operands of the FORMAT column. -/
def formatToks (opt : strelka_options) : List Tok :=
  [ .lit "DP:DP2:TAR:TIR:TOR:AF:OF:SOR:FS:BSA:RR",
    .lit ":BCN", .uns opt.indelRegionFlankSize ]

/-- The operands of a record written before the literal `;MQ0=`. -/
def toksBeforeMQ0 (X : Externals) (opt : strelka_options) (pos : Int)
    (siInfo : SomaticIndelVcfInfo) (smod : strelka_shared_modifiers_indel) : List Tok :=
  headToks opt pos siInfo smod ++ [ .lit "\t", .lit "SOMATIC" ]
  ++ (if smod.isQscore then [.lit ";EQSI=", .dbl 4 smod.Qscore] else [])
  ++ [ .lit ";QSI=", .int siInfo.sindel.rs.sindel_qphred,
       .lit ";TQSI=", .uns (u32 (siInfo.sindel.sindel_tier + 1)),
       .lit ";NT=", .str (X.NTYPE_label siInfo.sindel.rs.ntype),
       .lit ";QSI_NT=", .int siInfo.sindel.rs.sindel_from_ntype_qphred,
       .lit ";TQSI_NT=", .uns (u32 (siInfo.sindel.sindel_from_ntype_tier + 1)),
       .lit ";SGT=", .uns siInfo.sindel.rs.max_gt,
       .lit ";MQ=", .dbl 2 (mean_mapq siInfo) ]

/-- The operands of a record written after the value of `;IHP=`. -/
def toksAfterIHP (X : Externals) (opt : strelka_options) (siInfo : SomaticIndelVcfInfo)
    (wasNormal wasTumor : win_avg_set) (smod : strelka_shared_modifiers_indel) : List Tok :=
  (if opt.is_use_indel_empirical_scoring then [.lit ";ESF=", .features smod] else [])
  ++ (if siInfo.iri.it = INDEL.BP_LEFT ∨ siInfo.iri.it = INDEL.BP_RIGHT then
        [.lit ";SVTYPE=BND"] else [])
  ++ (if siInfo.sindel.rs.is_overlap then [.lit ";OVERLAP"] else [])
  ++ [ .lit "\t" ] ++ formatToks opt ++ [ .lit "\t" ]
  ++ write_vcf_isri_tiers X siInfo.nisri0 siInfo.nisri1 wasNormal
  ++ [ .lit "\t" ]
  ++ write_vcf_isri_tiers X siInfo.tisri0 siInfo.tisri1 wasTumor
  ++ [ .lit "\n" ]

/-- Whether an operand is a literal of the source. -/
def Tok.isLit : Tok → Bool
  | .lit _ => true
  | _ => false

/-- The literals among a sequence of operands, in order. -/
def litKeys (ts : List Tok) : List String :=
  ts.filterMap fun t =>
    match t with
    | .lit s => some s
    | _ => none

/-- Order of the INFO keys, as the literals that introduce them. -/
def infoKeyOrder : List String :=
  [ "SOMATIC", ";EQSI=", ";QSI=", ";TQSI=", ";NT=", ";QSI_NT=", ";TQSI_NT=", ";SGT=",
    ";MQ=", ";MQ0=", ";RU=", ";RC=", ";IC=", ";IHP=", ";ESF=", ";SVTYPE=BND", ";OVERLAP" ]

/-- Number of `:` characters in a text. -/
def colonCount (s : String) : Nat :=
  s.toList.count ':'

/-- Number of `:`-separated fields of a text. -/
def colonFields (s : String) : Nat :=
  colonCount s + 1

/-! ## Filter logic of `writeSomaticIndelVcfGrid` -/

section Filters

variable (X : Externals) (opt : strelka_options) (dopt : strelka_deriv_options)
  (siInfo : SomaticIndelVcfInfo) (wasNormal wasTumor : win_avg_set)

theorem set_filter_filters (smod : strelka_shared_modifiers_indel)
    (i j : STRELKA_VCF_FILTERS) :
    (smod.set_filter i).filters j = (decide (j = i) || smod.filters j) := by
  by_cases h : j = i <;> simp [strelka_shared_modifiers_indel.set_filter, h]

theorem set_filter_Qscore (smod : strelka_shared_modifiers_indel) (i : STRELKA_VCF_FILTERS) :
    (smod.set_filter i).Qscore = smod.Qscore := rfl

theorem set_filter_isQscore (smod : strelka_shared_modifiers_indel)
    (i : STRELKA_VCF_FILTERS) : (smod.set_filter i).isQscore = smod.isQscore := rfl

theorem smodDepth_filters (j : STRELKA_VCF_FILTERS) :
    (smodDepth dopt siInfo).filters j =
      (decide (j = .HighDepth) && dopt.is_max_depth &&
        Dbl.gt (Dbl.ofNat siInfo.nisri0.depth) dopt.max_depth) := by
  unfold smodDepth
  by_cases h1 : dopt.is_max_depth = true <;>
    by_cases h2 : Dbl.gt (Dbl.ofNat siInfo.nisri0.depth) dopt.max_depth = true <;>
    simp [h1, h2, set_filter_filters, strelka_shared_modifiers_indel.init]

theorem smodScore_filters (smod : strelka_shared_modifiers_indel) :
    (smodScore X opt dopt siInfo wasNormal wasTumor smod).filters = smod.filters := by
  unfold smodScore
  by_cases h : X.isVariantScoringInit = true <;> simp [h]

theorem smodScore_Qscore (smod : strelka_shared_modifiers_indel) :
    (smodScore X opt dopt siInfo wasNormal wasTumor smod).Qscore =
      if X.isVariantScoringInit then
        Dbl.sub Dbl.one
          (X.score_variant (X.calculateVQSRFeatures siInfo wasNormal wasTumor opt dopt))
      else Dbl.zero := by
  unfold smodScore
  by_cases h : X.isVariantScoringInit = true <;> simp [h]

theorem smodScore_isQscore (smod : strelka_shared_modifiers_indel) :
    (smodScore X opt dopt siInfo wasNormal wasTumor smod).isQscore =
      (X.isVariantScoringInit || smod.isQscore) := by
  unfold smodScore
  by_cases h : X.isVariantScoringInit = true <;> simp [h]

theorem smodMode_Qscore (smod : strelka_shared_modifiers_indel) :
    (smodMode X opt siInfo wasNormal wasTumor smod).Qscore = smod.Qscore := by
  unfold smodMode
  simp only []
  split_ifs <;> simp [set_filter_Qscore]

theorem smodMode_isQscore (smod : strelka_shared_modifiers_indel) :
    (smodMode X opt siInfo wasNormal wasTumor smod).isQscore = smod.isQscore := by
  unfold smodMode
  simp only []
  split_ifs <;> simp [set_filter_isQscore]

/-- Filters after the mode branch, one by one. -/
theorem smodMode_filters (smod : strelka_shared_modifiers_indel) (j : STRELKA_VCF_FILTERS) :
    (smodMode X opt siInfo wasNormal wasTumor smod).filters j =
      (smod.filters j ||
        (!opt.is_use_indel_empirical_scoring &&
          ((decide (j = .IndelBCNoise) &&
              (Dbl.ge (X.calculateBCNoise wasNormal) opt.indelMaxWindowFilteredBasecallFrac ||
               Dbl.ge (X.calculateBCNoise wasTumor) opt.indelMaxWindowFilteredBasecallFrac)) ||
           (decide (j = .QSI_ref) &&
              (decide (siInfo.sindel.rs.ntype ≠ NTYPE.REF) ||
               decide (siInfo.sindel.rs.sindel_from_ntype_qphred
                        < opt.sindelQuality_LowerBound))))) ||
        (opt.is_use_indel_empirical_scoring &&
          ((decide (j = .Nonref) && decide (siInfo.sindel.rs.ntype ≠ NTYPE.REF)) ||
           (decide (j = .LowQscore) && Dbl.lt smod.Qscore X.score_threshold)))) := by
  unfold smodMode
  simp only []
  cases opt.is_use_indel_empirical_scoring <;>
    split_ifs <;> simp_all [set_filter_filters, set_filter_Qscore] <;>
    cases j <;> simp_all

theorem smodDepth_isQscore : (smodDepth dopt siInfo).isQscore = false := by
  unfold smodDepth
  simp only []
  split_ifs <;> simp [set_filter_isQscore, strelka_shared_modifiers_indel.init]

end Filters

/-! ## Claims on the filter set -/

/-- C1: in both scoring modes the filter set written in the FILTER column contains
`HighDepth` iff depth filtering is enabled and the normal tier1 depth is strictly greater
than `max_depth`; that filter set is the operand of the `write_filters` call, and it
holds `HighDepth` exactly when the first step (lines 92-101) has set it. -/
theorem highDepth_iff (X : Externals) (opt : strelka_options) (dopt : strelka_deriv_options)
    (pos : Int) (siInfo : SomaticIndelVcfInfo) (wasNormal wasTumor : win_avg_set) :
    Tok.filters (writeSomaticIndelVcfGrid_smod X opt dopt siInfo wasNormal wasTumor) ∈
        writeSomaticIndelVcfGrid_toks X opt dopt pos siInfo wasNormal wasTumor ∧
    ((writeSomaticIndelVcfGrid_smod X opt dopt siInfo wasNormal wasTumor).filters
        STRELKA_VCF_FILTERS.HighDepth = true ↔
      (dopt.is_max_depth = true ∧
        Dbl.gt (Dbl.ofNat siInfo.nisri0.depth) dopt.max_depth = true)) ∧
    (writeSomaticIndelVcfGrid_smod X opt dopt siInfo wasNormal wasTumor).filters
        STRELKA_VCF_FILTERS.HighDepth =
      (smodDepth dopt siInfo).filters STRELKA_VCF_FILTERS.HighDepth := by
  refine ⟨?_, ?_, ?_⟩
  · simp [writeSomaticIndelVcfGrid_toks, gridToks]
  · simp [writeSomaticIndelVcfGrid_smod, smodMode_filters, smodScore_filters,
      smodDepth_filters]
  · simp [writeSomaticIndelVcfGrid_smod, smodMode_filters, smodScore_filters]

/-- Example of C1: depth 40 against threshold 30 with the filter enabled sets `HighDepth`,
in the legacy and in the empirical mode. -/
theorem highDepth_example :
    (writeSomaticIndelVcfGrid_smod (exX false 0) (exOpt false) exDopt
        (exInfo NTYPE.REF 40 40) exQuiet exQuiet).filters STRELKA_VCF_FILTERS.HighDepth = true ∧
    (writeSomaticIndelVcfGrid_smod (exX true (4 / 5)) (exOpt true) exDopt
        (exInfo NTYPE.REF 40 40) exQuiet exQuiet).filters STRELKA_VCF_FILTERS.HighDepth = true ∧
    (writeSomaticIndelVcfGrid_smod (exX false 0) (exOpt false) exDopt
        (exInfo NTYPE.REF 40 30) exQuiet exQuiet).filters STRELKA_VCF_FILTERS.HighDepth
      = false := by
  simp [writeSomaticIndelVcfGrid_smod, smodMode_filters, smodScore_filters,
    smodDepth_filters, exDopt, exInfo, exIsri, exOpt, Dbl.gt, Dbl.lt, Dbl.ofNat]
  norm_num

/-- C2: in legacy mode the filter set contains `QSI_ref` iff the null type is not `REF` or
the null-type quality is strictly below `sindelQuality_LowerBound`. -/
theorem qsiRef_iff (X : Externals) (opt : strelka_options) (dopt : strelka_deriv_options)
    (siInfo : SomaticIndelVcfInfo) (wasNormal wasTumor : win_avg_set)
    (hmode : opt.is_use_indel_empirical_scoring = false) :
    (writeSomaticIndelVcfGrid_smod X opt dopt siInfo wasNormal wasTumor).filters
        STRELKA_VCF_FILTERS.QSI_ref = true ↔
      (siInfo.sindel.rs.ntype ≠ NTYPE.REF ∨
        siInfo.sindel.rs.sindel_from_ntype_qphred < opt.sindelQuality_LowerBound) := by
  simp [writeSomaticIndelVcfGrid_smod, smodMode_filters, smodScore_filters,
    smodDepth_filters, hmode]

/-- Witness of C2: null type `REF`, quality 25, bound 30, legacy mode. -/
theorem qsiRef_iff_witness :
    (exOpt false).is_use_indel_empirical_scoring = false ∧
    ((writeSomaticIndelVcfGrid_smod (exX false 0) (exOpt false) exDopt
        (exInfo NTYPE.REF 25 10) exQuiet exQuiet).filters STRELKA_VCF_FILTERS.QSI_ref = true ↔
      ((exInfo NTYPE.REF 25 10).sindel.rs.ntype ≠ NTYPE.REF ∨
        (exInfo NTYPE.REF 25 10).sindel.rs.sindel_from_ntype_qphred
          < (exOpt false).sindelQuality_LowerBound)) ∧
    (exInfo NTYPE.REF 25 10).sindel.rs.sindel_from_ntype_qphred
      < (exOpt false).sindelQuality_LowerBound :=
  ⟨rfl, qsiRef_iff (exX false 0) (exOpt false) exDopt (exInfo NTYPE.REF 25 10) exQuiet exQuiet
      rfl, by decide⟩

/-- Example of C2: quality 25 sets `QSI_ref`, a quality equal to the bound 30 does not. -/
theorem qsiRef_example :
    (writeSomaticIndelVcfGrid_smod (exX false 0) (exOpt false) exDopt
        (exInfo NTYPE.REF 25 10) exQuiet exQuiet).filters STRELKA_VCF_FILTERS.QSI_ref = true ∧
    (writeSomaticIndelVcfGrid_smod (exX false 0) (exOpt false) exDopt
        (exInfo NTYPE.REF 30 10) exQuiet exQuiet).filters STRELKA_VCF_FILTERS.QSI_ref
      = false := by
  simp [writeSomaticIndelVcfGrid_smod, smodMode_filters, smodScore_filters,
    smodDepth_filters, exInfo, exOpt]

/-- C3: in legacy mode the filter set contains `IndelBCNoise` iff the noise fraction of the
normal or of the tumor window set is greater than or equal to
`indelMaxWindowFilteredBasecallFrac`. -/
theorem indelBCNoise_iff (X : Externals) (opt : strelka_options)
    (dopt : strelka_deriv_options) (siInfo : SomaticIndelVcfInfo)
    (wasNormal wasTumor : win_avg_set)
    (hmode : opt.is_use_indel_empirical_scoring = false) :
    (writeSomaticIndelVcfGrid_smod X opt dopt siInfo wasNormal wasTumor).filters
        STRELKA_VCF_FILTERS.IndelBCNoise = true ↔
      (Dbl.ge (X.calculateBCNoise wasNormal) opt.indelMaxWindowFilteredBasecallFrac = true ∨
       Dbl.ge (X.calculateBCNoise wasTumor) opt.indelMaxWindowFilteredBasecallFrac = true) := by
  simp [writeSomaticIndelVcfGrid_smod, smodMode_filters, smodScore_filters,
    smodDepth_filters, hmode]

/-- Example of C3: a tumor noise fraction 3/10 equal to the threshold 3/10 sets
`IndelBCNoise`; fractions 1/10 on both sides do not. -/
theorem indelBCNoise_example :
    (writeSomaticIndelVcfGrid_smod (exX false 0) (exOpt false) exDopt
        (exInfo NTYPE.REF 40 10) exQuiet exNoisy).filters
          STRELKA_VCF_FILTERS.IndelBCNoise = true ∧
    (writeSomaticIndelVcfGrid_smod (exX false 0) (exOpt false) exDopt
        (exInfo NTYPE.REF 40 10) exQuiet exQuiet).filters
          STRELKA_VCF_FILTERS.IndelBCNoise = false := by
  simp [writeSomaticIndelVcfGrid_smod, smodMode_filters, smodScore_filters,
    smodDepth_filters, exOpt, exX, exQuiet, exNoisy, Dbl.ge, Dbl.div, Dbl.ofNat]
  norm_num

/-- Witness of C3: tumor noise fraction equal to the threshold, legacy mode. -/
theorem indelBCNoise_iff_witness :
    (exOpt false).is_use_indel_empirical_scoring = false ∧
    ((writeSomaticIndelVcfGrid_smod (exX false 0) (exOpt false) exDopt
        (exInfo NTYPE.REF 40 10) exQuiet exNoisy).filters
          STRELKA_VCF_FILTERS.IndelBCNoise = true ↔
      (Dbl.ge ((exX false 0).calculateBCNoise exQuiet)
          (exOpt false).indelMaxWindowFilteredBasecallFrac = true ∨
       Dbl.ge ((exX false 0).calculateBCNoise exNoisy)
          (exOpt false).indelMaxWindowFilteredBasecallFrac = true)) :=
  ⟨rfl, indelBCNoise_iff (exX false 0) (exOpt false) exDopt (exInfo NTYPE.REF 40 10)
      exQuiet exNoisy rfl⟩

/-- C4: in empirical mode the filter set contains `LowQscore` iff the calibrated score
`smod.Qscore` is strictly below the INDEL score threshold of the model. -/
theorem lowQscore_iff (X : Externals) (opt : strelka_options) (dopt : strelka_deriv_options)
    (siInfo : SomaticIndelVcfInfo) (wasNormal wasTumor : win_avg_set)
    (hmode : opt.is_use_indel_empirical_scoring = true) :
    (writeSomaticIndelVcfGrid_smod X opt dopt siInfo wasNormal wasTumor).filters
        STRELKA_VCF_FILTERS.LowQscore = true ↔
      Dbl.lt (writeSomaticIndelVcfGrid_smod X opt dopt siInfo wasNormal wasTumor).Qscore
        X.score_threshold = true := by
  simp [writeSomaticIndelVcfGrid_smod, smodMode_filters, smodScore_filters,
    smodDepth_filters, smodMode_Qscore, hmode]

/-- Witness of C4: empirical mode, native score 4/5, so calibrated score 1/5, against the
threshold 1/2. -/
theorem lowQscore_iff_witness :
    (exOpt true).is_use_indel_empirical_scoring = true ∧
    (writeSomaticIndelVcfGrid_smod (exX true (4 / 5)) (exOpt true) exDopt
        (exInfo NTYPE.REF 40 10) exQuiet exQuiet).Qscore = Dbl.fin (1 / 5) ∧
    (exX true (4 / 5)).score_threshold = Dbl.fin (1 / 2) ∧
    ((writeSomaticIndelVcfGrid_smod (exX true (4 / 5)) (exOpt true) exDopt
        (exInfo NTYPE.REF 40 10) exQuiet exQuiet).filters
          STRELKA_VCF_FILTERS.LowQscore = true ↔
      Dbl.lt (writeSomaticIndelVcfGrid_smod (exX true (4 / 5)) (exOpt true) exDopt
          (exInfo NTYPE.REF 40 10) exQuiet exQuiet).Qscore
        (exX true (4 / 5)).score_threshold = true) :=
  ⟨rfl,
   by simp [writeSomaticIndelVcfGrid_smod, smodMode_Qscore, smodScore_Qscore, exX,
        Dbl.sub, Dbl.one, Dbl.neg, Dbl.add]; norm_num,
   rfl,
   lowQscore_iff (exX true (4 / 5)) (exOpt true) exDopt (exInfo NTYPE.REF 40 10)
     exQuiet exQuiet rfl⟩

/-- Example of C4: calibrated score 1/5 below the threshold 1/2 sets `LowQscore`; a
calibrated score equal to the threshold does not. -/
theorem lowQscore_example :
    (writeSomaticIndelVcfGrid_smod (exX true (4 / 5)) (exOpt true) exDopt
        (exInfo NTYPE.REF 40 10) exQuiet exQuiet).filters
          STRELKA_VCF_FILTERS.LowQscore = true ∧
    (writeSomaticIndelVcfGrid_smod (exX true (1 / 2)) (exOpt true) exDopt
        (exInfo NTYPE.REF 40 10) exQuiet exQuiet).filters
          STRELKA_VCF_FILTERS.LowQscore = false := by
  simp [writeSomaticIndelVcfGrid_smod, smodMode_filters, smodScore_filters,
    smodDepth_filters, smodScore_Qscore, exOpt, exX, Dbl.lt, Dbl.sub, Dbl.one, Dbl.neg,
    Dbl.add]
  norm_num

/-- C5: in empirical mode the filter set contains `Nonref` iff the null type is not `REF`,
whatever the null-type quality and the window noise fractions. -/
theorem nonref_iff (X : Externals) (opt : strelka_options) (dopt : strelka_deriv_options)
    (siInfo : SomaticIndelVcfInfo) (wasNormal wasTumor : win_avg_set)
    (hmode : opt.is_use_indel_empirical_scoring = true) :
    (writeSomaticIndelVcfGrid_smod X opt dopt siInfo wasNormal wasTumor).filters
        STRELKA_VCF_FILTERS.Nonref = true ↔
      siInfo.sindel.rs.ntype ≠ NTYPE.REF := by
  simp [writeSomaticIndelVcfGrid_smod, smodMode_filters, smodScore_filters,
    smodDepth_filters, hmode]

/-- Witness of C5: a call whose null type is not `REF`, with a high null-type quality and
quiet windows, in empirical mode. -/
theorem nonref_iff_witness :
    (exOpt true).is_use_indel_empirical_scoring = true ∧
    ((writeSomaticIndelVcfGrid_smod (exX true (4 / 5)) (exOpt true) exDopt
        (exInfo (NTYPE.other 1) 40 10) exQuiet exQuiet).filters
          STRELKA_VCF_FILTERS.Nonref = true ↔
      (exInfo (NTYPE.other 1) 40 10).sindel.rs.ntype ≠ NTYPE.REF) ∧
    (exInfo (NTYPE.other 1) 40 10).sindel.rs.ntype ≠ NTYPE.REF :=
  ⟨rfl, nonref_iff (exX true (4 / 5)) (exOpt true) exDopt (exInfo (NTYPE.other 1) 40 10)
      exQuiet exQuiet rfl, by decide⟩

/-- C6: the filter set never holds a member of `IndelBCNoise`, `QSI_ref` together with a
member of `Nonref`, `LowQscore`: the empirical mode sets neither `IndelBCNoise` nor
`QSI_ref`, the legacy mode sets neither `Nonref` nor `LowQscore`. -/
theorem mode_filters_exclusive (X : Externals) (opt : strelka_options)
    (dopt : strelka_deriv_options) (siInfo : SomaticIndelVcfInfo)
    (wasNormal wasTumor : win_avg_set) :
    (if opt.is_use_indel_empirical_scoring = true then
        (writeSomaticIndelVcfGrid_smod X opt dopt siInfo wasNormal wasTumor).filters
            STRELKA_VCF_FILTERS.IndelBCNoise = false ∧
        (writeSomaticIndelVcfGrid_smod X opt dopt siInfo wasNormal wasTumor).filters
            STRELKA_VCF_FILTERS.QSI_ref = false
      else
        (writeSomaticIndelVcfGrid_smod X opt dopt siInfo wasNormal wasTumor).filters
            STRELKA_VCF_FILTERS.Nonref = false ∧
        (writeSomaticIndelVcfGrid_smod X opt dopt siInfo wasNormal wasTumor).filters
            STRELKA_VCF_FILTERS.LowQscore = false) ∧
    ¬ (((writeSomaticIndelVcfGrid_smod X opt dopt siInfo wasNormal wasTumor).filters
            STRELKA_VCF_FILTERS.IndelBCNoise = true ∨
        (writeSomaticIndelVcfGrid_smod X opt dopt siInfo wasNormal wasTumor).filters
            STRELKA_VCF_FILTERS.QSI_ref = true) ∧
       ((writeSomaticIndelVcfGrid_smod X opt dopt siInfo wasNormal wasTumor).filters
            STRELKA_VCF_FILTERS.Nonref = true ∨
        (writeSomaticIndelVcfGrid_smod X opt dopt siInfo wasNormal wasTumor).filters
            STRELKA_VCF_FILTERS.LowQscore = true)) := by
  cases hmode : opt.is_use_indel_empirical_scoring <;>
    simp [writeSomaticIndelVcfGrid_smod, smodMode_filters, smodScore_filters,
      smodDepth_filters, hmode]

/-- C7: the calibrated score is `1 - score_variant(features)` and marked present when the
model is initialised, and is 0 and not marked present otherwise; the `EQSI` key is written
iff the model is initialised, followed by the score with 4 decimals. -/
theorem qscore_of_model (X : Externals) (opt : strelka_options)
    (dopt : strelka_deriv_options) (pos : Int) (siInfo : SomaticIndelVcfInfo)
    (wasNormal wasTumor : win_avg_set) :
    (writeSomaticIndelVcfGrid_smod X opt dopt siInfo wasNormal wasTumor).Qscore =
      (if X.isVariantScoringInit = true then
        Dbl.sub Dbl.one
          (X.score_variant (X.calculateVQSRFeatures siInfo wasNormal wasTumor opt dopt))
       else Dbl.zero) ∧
    (writeSomaticIndelVcfGrid_smod X opt dopt siInfo wasNormal wasTumor).isQscore =
      X.isVariantScoringInit ∧
    (Tok.lit ";EQSI=" ∈ writeSomaticIndelVcfGrid_toks X opt dopt pos siInfo wasNormal wasTumor
      ↔ X.isVariantScoringInit = true) ∧
    (Tok.dbl 4 (writeSomaticIndelVcfGrid_smod X opt dopt siInfo wasNormal wasTumor).Qscore ∈
        writeSomaticIndelVcfGrid_toks X opt dopt pos siInfo wasNormal wasTumor
      ↔ X.isVariantScoringInit = true) := by
  have hq : (writeSomaticIndelVcfGrid_smod X opt dopt siInfo wasNormal wasTumor).isQscore =
      X.isVariantScoringInit := by
    simp [writeSomaticIndelVcfGrid_smod, smodMode_isQscore, smodScore_isQscore,
      smodDepth_isQscore]
  refine ⟨?_, hq, ?_, ?_⟩
  · simp [writeSomaticIndelVcfGrid_smod, smodMode_Qscore, smodScore_Qscore]
  · cases hi : X.isVariantScoringInit <;>
      simp [writeSomaticIndelVcfGrid_toks, gridToks, write_vcf_isri_tiers, hq, hi]
  · cases hi : X.isVariantScoringInit <;>
      simp [writeSomaticIndelVcfGrid_toks, gridToks, write_vcf_isri_tiers, hq, hi]

/-- Example of C7: with an uninitialised model the score is 0 and not marked present; with
an initialised model of native score 4/5 it is 1/5 and marked present. -/
theorem qscore_example :
    ((writeSomaticIndelVcfGrid_smod (exX false (4 / 5)) (exOpt true) exDopt
        (exInfo NTYPE.REF 40 10) exQuiet exQuiet).Qscore = Dbl.fin 0 ∧
     (writeSomaticIndelVcfGrid_smod (exX false (4 / 5)) (exOpt true) exDopt
        (exInfo NTYPE.REF 40 10) exQuiet exQuiet).isQscore = false) ∧
    ((writeSomaticIndelVcfGrid_smod (exX true (4 / 5)) (exOpt true) exDopt
        (exInfo NTYPE.REF 40 10) exQuiet exQuiet).Qscore = Dbl.fin (1 / 5) ∧
     (writeSomaticIndelVcfGrid_smod (exX true (4 / 5)) (exOpt true) exDopt
        (exInfo NTYPE.REF 40 10) exQuiet exQuiet).isQscore = true) := by
  simp [writeSomaticIndelVcfGrid_smod, smodMode_Qscore, smodScore_Qscore,
    smodMode_isQscore, smodScore_isQscore, smodDepth_isQscore, exX, Dbl.sub, Dbl.one,
    Dbl.zero, Dbl.neg, Dbl.add]
  norm_num

/-! ## The indel cache -/

section Cache

variable (X : Externals) (w : SomaticIndelVcfWriter) (pos : Int)
  (wasNormal wasTumor : win_avg_set)

theorem foldl_write (f : SomaticIndelVcfInfo → String) (v : List SomaticIndelVcfInfo)
    (os : String) :
    v.foldl (fun os c => os ++ f c) os = os ++ concatText (v.map f) := by
  induction v generalizing os with
  | nil => simp [concatText]
  | cons c v ih =>
    simp only [List.foldl_cons, List.map_cons]
    rw [ih]
    simp [concatText, String.append_assoc]

theorem cacheIndel_data (c : SomaticIndelVcfInfo) (p : Int) :
    (cacheIndel w pos c)._data p =
      if p = pos then some (cachedAt w pos ++ [c]) else w._data p := by
  unfold cacheIndel IndelCache.index cachedAt
  cases h : w._data pos <;> by_cases hp : p = pos <;> simp [IndelCache.store, hp]

theorem cacheIndel_frame (c : SomaticIndelVcfInfo) :
    (cacheIndel w pos c)._opt = w._opt ∧ (cacheIndel w pos c)._dopt = w._dopt ∧
      (cacheIndel w pos c).os = w.os := by
  unfold cacheIndel
  exact ⟨rfl, rfl, rfl⟩

theorem cachedAt_cacheIndel (c : SomaticIndelVcfInfo) :
    cachedAt (cacheIndel w pos c) pos = cachedAt w pos ++ [c] := by
  simp [cachedAt, cacheIndel_data]

theorem cacheIndels_frame (cs : List SomaticIndelVcfInfo) :
    (cacheIndels w pos cs)._opt = w._opt ∧ (cacheIndels w pos cs)._dopt = w._dopt ∧
      (cacheIndels w pos cs).os = w.os := by
  induction cs generalizing w with
  | nil => exact ⟨rfl, rfl, rfl⟩
  | cons c cs ih =>
    have h := ih (cacheIndel w pos c)
    have h' := cacheIndel_frame w pos c
    simp only [cacheIndels, List.foldl_cons] at h ⊢
    exact ⟨h.1.trans h'.1, h.2.1.trans h'.2.1, h.2.2.trans h'.2.2⟩

theorem cacheIndels_data (cs : List SomaticIndelVcfInfo) (hne : cs ≠ []) :
    (cacheIndels w pos cs)._data pos = some (cachedAt w pos ++ cs) := by
  induction cs generalizing w with
  | nil => exact absurd rfl hne
  | cons c cs ih =>
    cases cs with
    | nil => simp [cacheIndels, cacheIndel_data]
    | cons c' cs' =>
      have h := ih (cacheIndel w pos c) (by simp)
      simp only [cacheIndels, List.foldl_cons] at h ⊢
      rw [h, cachedAt_cacheIndel]
      simp

theorem addIndelWindowData_of_some (v : List SomaticIndelVcfInfo)
    (h : w._data pos = some v) :
    addIndelWindowData X w pos wasNormal wasTumor =
      Outcome.returned
        { w with
          os := w.os ++
            concatText (v.map (fun c => record X w._opt w._dopt pos c wasNormal wasTumor))
          _data := w._data.erase pos } := by
  unfold addIndelWindowData testPos IndelCache.index
  simp only [h, Option.isSome_some, if_true]
  unfold writeSomaticIndelVcfGrid
  rw [foldl_write]

theorem addIndelWindowData_of_none (h : w._data pos = none) :
    addIndelWindowData X w pos wasNormal wasTumor = Outcome.assertFailed w := by
  unfold addIndelWindowData testPos
  simp [h]

theorem testPos_eq_true_iff : testPos w pos = true ↔ ∃ v, w._data pos = some v := by
  unfold testPos
  cases w._data pos <;> simp

theorem testPos_eq_false_iff : testPos w pos = false ↔ w._data pos = none := by
  unfold testPos
  cases w._data pos <;> simp

/-- In a reachable state a position with an entry holds at least one call. -/
theorem Reachable.nonempty {X : Externals} {w : SomaticIndelVcfWriter}
    (hr : Reachable X w) (p : Int) (v : List SomaticIndelVcfInfo)
    (h : w._data p = some v) : v ≠ [] := by
  induction hr generalizing p v with
  | new opt dopt os => simp [SomaticIndelVcfWriter.new] at h
  | cacheIndel pos c _ ih =>
    rw [cacheIndel_data] at h
    by_cases hp : p = pos
    · simp [hp] at h
      rw [← h]
      simp
    · simp [hp] at h
      exact ih p v h
  | @addIndelWindowData w0 w1 pos wN wT _ hstep ih =>
    cases h0 : w0._data pos with
    | none =>
      rw [addIndelWindowData_of_none X w0 pos wN wT h0] at hstep
      cases hstep
    | some v0 =>
      rw [addIndelWindowData_of_some X w0 pos wN wT v0 h0] at hstep
      injection hstep with hw
      subst hw
      by_cases hp : p = pos
      · simp [IndelCache.erase, hp] at h
      · simp [IndelCache.erase, hp] at h
        exact ih p v h

end Cache

/-! ## Claims on the indel cache -/

/-- C8: when `pos` has cached entries, `addIndelWindowData(pos, ...)` returns and leaves a
cache without an entry for `pos`, however many calls were cached there. -/
theorem addIndelWindowData_erases (X : Externals) (w : SomaticIndelVcfWriter) (pos : Int)
    (wasNormal wasTumor : win_avg_set) (hpos : testPos w pos = true) :
    ∃ w', addIndelWindowData X w pos wasNormal wasTumor = Outcome.returned w' ∧
      testPos w' pos = false ∧ w'._data pos = none ∧ cachedAt w' pos = [] := by
  obtain ⟨v, hv⟩ := (testPos_eq_true_iff w pos).1 hpos
  refine ⟨_, addIndelWindowData_of_some X w pos wasNormal wasTumor v hv, ?_, ?_, ?_⟩ <;>
    simp [testPos, cachedAt, IndelCache.erase]

/-- Witness of C8: position 7 with two cached calls. -/
theorem addIndelWindowData_erases_witness :
    testPos (cacheIndels (exWriter "") 7 [exInfo NTYPE.REF 25 10, exInfo NTYPE.REF 40 40]) 7
      = true ∧
    ∃ w', addIndelWindowData (exX false 0)
        (cacheIndels (exWriter "") 7 [exInfo NTYPE.REF 25 10, exInfo NTYPE.REF 40 40]) 7
        exQuiet exQuiet = Outcome.returned w' ∧
      testPos w' 7 = false ∧ w'._data 7 = none ∧ cachedAt w' 7 = [] :=
  ⟨rfl, addIndelWindowData_erases (exX false 0)
      (cacheIndels (exWriter "") 7 [exInfo NTYPE.REF 25 10, exInfo NTYPE.REF 40 40]) 7
      exQuiet exQuiet rfl⟩

/-- C9: `cacheIndel(pos, call)` appends `call` at the end of the sequence stored for `pos`
(an absent sequence counts as empty; nothing is rejected or replaced), and after
`cacheIndel(pos, c1)`, ..., `cacheIndel(pos, cn)` the call `addIndelWindowData(pos, wN, wT)`
returns having appended to the stream one record per cached call in insertion order:
the records of the calls held before, then `record(c1) ++ ... ++ record(cn)`. -/
theorem cache_then_write (X : Externals) (w : SomaticIndelVcfWriter) (pos : Int)
    (cs : List SomaticIndelVcfInfo) (wasNormal wasTumor : win_avg_set) (hne : cs ≠ []) :
    (∀ c, (cacheIndel w pos c)._data pos = some (cachedAt w pos ++ [c])) ∧
    (cacheIndels w pos cs)._data pos = some (cachedAt w pos ++ cs) ∧
    (∀ c os, writeSomaticIndelVcfGrid X w._opt w._dopt pos c wasNormal wasTumor os =
      os ++ record X w._opt w._dopt pos c wasNormal wasTumor) ∧
    ∃ w', addIndelWindowData X (cacheIndels w pos cs) pos wasNormal wasTumor
        = Outcome.returned w' ∧
      w'.os = w.os ++ concatText ((cachedAt w pos ++ cs).map
        (fun c => record X w._opt w._dopt pos c wasNormal wasTumor)) := by
  refine ⟨fun c => by simp [cacheIndel_data], cacheIndels_data w pos cs hne,
    fun _ _ => rfl, ?_⟩
  have hd := cacheIndels_data w pos cs hne
  have hf := cacheIndels_frame w pos cs
  refine ⟨_, addIndelWindowData_of_some X _ pos wasNormal wasTumor _ hd, ?_⟩
  simp [hf.1, hf.2.1, hf.2.2]

/-- Witness of C9: two calls cached at position 7 of a new writer whose stream holds
`#h`; the stream then holds `#h`, the record of the first and the record of the second. -/
theorem cache_then_write_witness :
    [exInfo NTYPE.REF 25 10, exInfo NTYPE.REF 40 40] ≠ [] ∧
    cachedAt (exWriter "#h") 7 = [] ∧
    ∃ w', addIndelWindowData (exX false 0)
        (cacheIndels (exWriter "#h") 7 [exInfo NTYPE.REF 25 10, exInfo NTYPE.REF 40 40]) 7
        exQuiet exQuiet = Outcome.returned w' ∧
      w'.os = "#h" ++ (record (exX false 0) (exOpt false) exDopt 7
          (exInfo NTYPE.REF 25 10) exQuiet exQuiet ++
        (record (exX false 0) (exOpt false) exDopt 7
          (exInfo NTYPE.REF 40 40) exQuiet exQuiet ++ "")) :=
  ⟨by simp, rfl,
   (cache_then_write (exX false 0) (exWriter "#h") 7
      [exInfo NTYPE.REF 25 10, exInfo NTYPE.REF 40 40] exQuiet exQuiet (by simp)).2.2.2⟩

/-- C10: `addIndelWindowData(pos, ...)` ends in a failed assertion iff the cache has no
entry for `pos`; it then fails in the state of the call, with nothing written and the
cache unchanged; with an entry for `pos` it returns.  In a reachable state the cache has
no entry for `pos` iff no call is cached at `pos`. -/
theorem addIndelWindowData_fails_iff (X : Externals) (w : SomaticIndelVcfWriter) (pos : Int)
    (wasNormal wasTumor : win_avg_set) :
    ((addIndelWindowData X w pos wasNormal wasTumor).failed = true ↔ testPos w pos = false) ∧
    (addIndelWindowData X w pos wasNormal wasTumor = Outcome.assertFailed w ↔
      testPos w pos = false) ∧
    ((addIndelWindowData X w pos wasNormal wasTumor).failed = true →
      (addIndelWindowData X w pos wasNormal wasTumor).state.os = w.os ∧
      (addIndelWindowData X w pos wasNormal wasTumor).state._data = w._data) ∧
    ((∃ w', addIndelWindowData X w pos wasNormal wasTumor = Outcome.returned w') ↔
      testPos w pos = true) ∧
    (Reachable X w → (testPos w pos = false ↔ cachedAt w pos = [])) := by
  cases h : w._data pos with
  | none =>
    have ht : testPos w pos = false := (testPos_eq_false_iff w pos).2 h
    rw [addIndelWindowData_of_none X w pos wasNormal wasTumor h]
    simp [ht, Outcome.failed, Outcome.state, cachedAt, h]
  | some v =>
    have ht : testPos w pos = true := (testPos_eq_true_iff w pos).2 ⟨v, h⟩
    rw [addIndelWindowData_of_some X w pos wasNormal wasTumor v h]
    simp only [ht, Outcome.failed, Outcome.state, cachedAt, h]
    refine ⟨by simp, by simp, by simp, by simp, fun hr => ?_⟩
    have := hr.nonempty pos v h
    simp [this]

/-- Example of C10: on a new writer the call for position 7 fails and leaves the writer
as it was; after one `cacheIndel` at 7 it returns. -/
theorem addIndelWindowData_fails_example :
    addIndelWindowData (exX false 0) (exWriter "#h") 7 exQuiet exQuiet
      = Outcome.assertFailed (exWriter "#h") ∧
    (addIndelWindowData (exX false 0) (cacheIndel (exWriter "#h") 7 (exInfo NTYPE.REF 25 10))
      7 exQuiet exQuiet).failed = false :=
  ⟨rfl, rfl⟩

/-! ## Claims on `CleanedPileup` -/

/-- C11: for a pileup whose raw count is an `unsigned`, `n_used_calls() +
n_unused_calls()` equals `n_calls()` in unsigned 32-bit arithmetic in every state, and
over the naturals when the cleaned list has at most `n_calls()` entries; a new and a
cleared pileup have all three counts 0. -/
theorem used_plus_unused {Call : Type} (cpi : CleanedPileup Call)
    (hraw : cpi._n_raw_calls < 2 ^ 32) :
    u32 (cpi.n_used_calls + cpi.n_unused_calls) = cpi.n_calls ∧
    (cpi._cleanedPileup.calls.length ≤ cpi._n_raw_calls →
      cpi.n_used_calls = cpi._cleanedPileup.calls.length ∧
      cpi.n_used_calls + cpi.n_unused_calls = cpi.n_calls) ∧
    ((CleanedPileup.new : CleanedPileup Call).n_calls = 0 ∧
      (CleanedPileup.new : CleanedPileup Call).n_used_calls = 0 ∧
      (CleanedPileup.new : CleanedPileup Call).n_unused_calls = 0) ∧
    (cpi.clear.n_calls = 0 ∧ cpi.clear.n_used_calls = 0 ∧ cpi.clear.n_unused_calls = 0) := by
  refine ⟨?_, ?_, ?_, ?_⟩
  · simp only [CleanedPileup.n_used_calls, CleanedPileup.n_unused_calls,
      CleanedPileup.n_calls, usub32, u32]
    omega
  · intro hle
    simp only [CleanedPileup.n_used_calls, CleanedPileup.n_unused_calls,
      CleanedPileup.n_calls, usub32, u32]
    omega
  · simp [CleanedPileup.new, CleanedPileup.n_used_calls, CleanedPileup.n_unused_calls,
      CleanedPileup.n_calls, usub32, u32]
  · simp [CleanedPileup.clear, CleanedPileup.n_used_calls, CleanedPileup.n_unused_calls,
      CleanedPileup.n_calls, usub32, u32]

/-- Witness of C11: 5 raw calls of which 3 are kept, so 3 used and 2 unused. -/
theorem used_plus_unused_witness :
    exPileup._n_raw_calls < 2 ^ 32 ∧
    exPileup.n_used_calls = 3 ∧ exPileup.n_unused_calls = 2 ∧ exPileup.n_calls = 5 ∧
    u32 (exPileup.n_used_calls + exPileup.n_unused_calls) = exPileup.n_calls :=
  ⟨by decide, by decide, by decide, by decide,
   (used_plus_unused exPileup (by decide)).1⟩

/-- Example of C11 outside the natural-number case: a state with 1 raw call and 2 cleaned
calls has 2 used and `2 ^ 32 - 1` unused calls, whose sum is `n_calls()` only modulo
`2 ^ 32`. -/
theorem used_plus_unused_wraps :
    ({ _rawPileupPtr := none, _n_raw_calls := 1, _cleanedPileup := { calls := [7, 8] },
       _dependentErrorProb := [] } : CleanedPileup Nat).n_unused_calls = 2 ^ 32 - 1 := by
  decide

/-! ## Claims on the record -/

/-- The operands of a record, column by column. -/
theorem gridToks_columns (X : Externals) (opt : strelka_options) (pos : Int)
    (siInfo : SomaticIndelVcfInfo) (wasNormal wasTumor : win_avg_set)
    (smod : strelka_shared_modifiers_indel) :
    gridToks X opt pos siInfo wasNormal wasTumor smod =
      headToks opt pos siInfo smod ++ [Tok.lit "\t"] ++ infoToks X opt siInfo smod ++
      [Tok.lit "\t"] ++ formatToks opt ++ [Tok.lit "\t"] ++
      write_vcf_isri_tiers X siInfo.nisri0 siInfo.nisri1 wasNormal ++ [Tok.lit "\t"] ++
      write_vcf_isri_tiers X siInfo.tisri0 siInfo.tisri1 wasTumor ++ [Tok.lit "\n"] := by
  simp [gridToks, headToks, infoToks, formatToks, repeatToks]

/-- The operands of a record around the repeat fields. -/
theorem gridToks_around_repeat (X : Externals) (opt : strelka_options) (pos : Int)
    (siInfo : SomaticIndelVcfInfo) (wasNormal wasTumor : win_avg_set)
    (smod : strelka_shared_modifiers_indel) :
    gridToks X opt pos siInfo wasNormal wasTumor smod =
      toksBeforeMQ0 X opt pos siInfo smod ++
      [Tok.lit ";MQ0=", Tok.dbl 2 (mean_mapq0 siInfo)] ++ repeatToks siInfo ++
      [Tok.lit ";IHP=", Tok.uns siInfo.iri.ihpol] ++
      toksAfterIHP X opt siInfo wasNormal wasTumor smod := by
  simp [gridToks, toksBeforeMQ0, toksAfterIHP, headToks, formatToks, repeatToks]

/-- None of the keys `;MQ0=`, `;RU=`, `;RC=`, `;IC=`, `;IHP=` is written before `;MQ0=`. -/
theorem not_mem_toksBeforeMQ0 (X : Externals) (opt : strelka_options) (pos : Int)
    (siInfo : SomaticIndelVcfInfo) (smod : strelka_shared_modifiers_indel) (k : String)
    (hk : k ∈ [";MQ0=", ";RU=", ";RC=", ";IC=", ";IHP="]) :
    Tok.lit k ∉ toksBeforeMQ0 X opt pos siInfo smod := by
  simp only [List.mem_cons, List.mem_singleton, List.not_mem_nil, or_false] at hk
  rcases hk with rfl | rfl | rfl | rfl | rfl <;>
    cases smod.isQscore <;> simp [toksBeforeMQ0, headToks]

/-- None of the keys `;MQ0=`, `;RU=`, `;RC=`, `;IC=`, `;IHP=` is written after the value
of `;IHP=`. -/
theorem not_mem_toksAfterIHP (X : Externals) (opt : strelka_options)
    (siInfo : SomaticIndelVcfInfo) (wasNormal wasTumor : win_avg_set)
    (smod : strelka_shared_modifiers_indel) (k : String)
    (hk : k ∈ [";MQ0=", ";RU=", ";RC=", ";IC=", ";IHP="]) :
    Tok.lit k ∉ toksAfterIHP X opt siInfo wasNormal wasTumor smod := by
  simp only [List.mem_cons, List.mem_singleton, List.not_mem_nil, or_false] at hk
  rcases hk with rfl | rfl | rfl | rfl | rfl <;>
    simp [toksAfterIHP, formatToks, write_vcf_isri_tiers]

/-- Value of `mean_mapq0` when neither tier2 record has a mapping-quality observation. -/
theorem mean_mapq0_of_no_mapq (siInfo : SomaticIndelVcfInfo)
    (hn : siInfo.nisri1.n_mapq = 0) (ht : siInfo.tisri1.n_mapq = 0) :
    mean_mapq0 siInfo = Dbl.nan := by
  unfold mean_mapq0
  rw [hn, ht]
  cases siInfo.nisri1.mapq0_frac <;> cases siInfo.tisri1.mapq0_frac <;>
    simp [Dbl.mul, Dbl.add, Dbl.div, Dbl.ofNat, Dbl.infOfSign, Dbl.sign, u32]

/-- C12 (the code diverges): when both tier2 records have `n_mapq = 0` the divisor of the
MQ0 computation is 0 and is not guarded; the value written after the only `;MQ0=` of the
record is the NaN of the division, not 0. -/
theorem mq0_no_observations (X : Externals) (opt : strelka_options)
    (dopt : strelka_deriv_options) (pos : Int) (siInfo : SomaticIndelVcfInfo)
    (wasNormal wasTumor : win_avg_set)
    (hn : siInfo.nisri1.n_mapq = 0) (ht : siInfo.tisri1.n_mapq = 0) :
    Dbl.ofNat (u32 (siInfo.nisri1.n_mapq + siInfo.tisri1.n_mapq)) = Dbl.fin 0 ∧
    mean_mapq0 siInfo = Dbl.nan ∧
    mean_mapq0 siInfo ≠ Dbl.fin 0 ∧
    writeSomaticIndelVcfGrid_toks X opt dopt pos siInfo wasNormal wasTumor =
      toksBeforeMQ0 X opt pos siInfo
        (writeSomaticIndelVcfGrid_smod X opt dopt siInfo wasNormal wasTumor) ++
      [Tok.lit ";MQ0=", Tok.dbl 2 Dbl.nan] ++ repeatToks siInfo ++
      [Tok.lit ";IHP=", Tok.uns siInfo.iri.ihpol] ++
      toksAfterIHP X opt siInfo wasNormal wasTumor
        (writeSomaticIndelVcfGrid_smod X opt dopt siInfo wasNormal wasTumor) ∧
    Tok.lit ";MQ0=" ∉ toksBeforeMQ0 X opt pos siInfo
        (writeSomaticIndelVcfGrid_smod X opt dopt siInfo wasNormal wasTumor) ∧
    Tok.lit ";MQ0=" ∉ repeatToks siInfo ∧
    Tok.lit ";MQ0=" ∉ toksAfterIHP X opt siInfo wasNormal wasTumor
        (writeSomaticIndelVcfGrid_smod X opt dopt siInfo wasNormal wasTumor) := by
  have h := mean_mapq0_of_no_mapq siInfo hn ht
  refine ⟨by simp [hn, ht, u32, Dbl.ofNat], h, by simp [h], ?_,
    not_mem_toksBeforeMQ0 X opt pos siInfo _ _ (by simp), ?_,
    not_mem_toksAfterIHP X opt siInfo wasNormal wasTumor _ _ (by simp)⟩
  · rw [writeSomaticIndelVcfGrid_toks, gridToks_around_repeat, h]
  · unfold repeatToks
    split_ifs <;> simp

/-- Witness of C12: a call whose two tier2 records have `n_mapq = 0` and
`mapq0_frac = 0`; its MQ0 value is NaN. -/
theorem mq0_no_observations_witness :
    exInfoNoMapq.nisri1.n_mapq = 0 ∧ exInfoNoMapq.tisri1.n_mapq = 0 ∧
    exInfoNoMapq.nisri1.mapq0_frac = Dbl.fin 0 ∧
    exInfoNoMapq.tisri1.mapq0_frac = Dbl.fin 0 ∧
    mean_mapq0 exInfoNoMapq = Dbl.nan :=
  ⟨rfl, rfl, rfl, rfl,
   (mq0_no_observations (exX false 0) (exOpt false) exDopt 7 exInfoNoMapq exQuiet exQuiet
      rfl rfl).2.1⟩

/-- C13: the record holds, right after the value of `;MQ0=` and right before `;IHP=`, the
operands `;RU=` repeat_unit `;RC=` ref_repeat_count `;IC=` indel_repeat_count when
`is_repeat_unit()` is true and nothing when it is false; none of the three keys is
written anywhere else, so each is present iff `is_repeat_unit()` is true. -/
theorem repeat_fields_iff (X : Externals) (opt : strelka_options)
    (dopt : strelka_deriv_options) (pos : Int) (siInfo : SomaticIndelVcfInfo)
    (wasNormal wasTumor : win_avg_set) :
    writeSomaticIndelVcfGrid_toks X opt dopt pos siInfo wasNormal wasTumor =
      toksBeforeMQ0 X opt pos siInfo
        (writeSomaticIndelVcfGrid_smod X opt dopt siInfo wasNormal wasTumor) ++
      [Tok.lit ";MQ0=", Tok.dbl 2 (mean_mapq0 siInfo)] ++
      (if siInfo.iri.is_repeat_unit = true then
        [ Tok.lit ";RU=", Tok.str siInfo.iri.repeat_unit,
          Tok.lit ";RC=", Tok.uns siInfo.iri.ref_repeat_count,
          Tok.lit ";IC=", Tok.uns siInfo.iri.indel_repeat_count ]
       else []) ++
      [Tok.lit ";IHP=", Tok.uns siInfo.iri.ihpol] ++
      toksAfterIHP X opt siInfo wasNormal wasTumor
        (writeSomaticIndelVcfGrid_smod X opt dopt siInfo wasNormal wasTumor) ∧
    (∀ k ∈ [";MQ0=", ";RU=", ";RC=", ";IC=", ";IHP="],
      Tok.lit k ∉ toksBeforeMQ0 X opt pos siInfo
          (writeSomaticIndelVcfGrid_smod X opt dopt siInfo wasNormal wasTumor) ∧
      Tok.lit k ∉ toksAfterIHP X opt siInfo wasNormal wasTumor
          (writeSomaticIndelVcfGrid_smod X opt dopt siInfo wasNormal wasTumor)) ∧
    (∀ k ∈ [";RU=", ";RC=", ";IC="],
      (Tok.lit k ∈ writeSomaticIndelVcfGrid_toks X opt dopt pos siInfo wasNormal wasTumor ↔
        siInfo.iri.is_repeat_unit = true)) := by
  have hcols : writeSomaticIndelVcfGrid_toks X opt dopt pos siInfo wasNormal wasTumor =
      toksBeforeMQ0 X opt pos siInfo
        (writeSomaticIndelVcfGrid_smod X opt dopt siInfo wasNormal wasTumor) ++
      [Tok.lit ";MQ0=", Tok.dbl 2 (mean_mapq0 siInfo)] ++ repeatToks siInfo ++
      [Tok.lit ";IHP=", Tok.uns siInfo.iri.ihpol] ++
      toksAfterIHP X opt siInfo wasNormal wasTumor
        (writeSomaticIndelVcfGrid_smod X opt dopt siInfo wasNormal wasTumor) := by
    rw [writeSomaticIndelVcfGrid_toks, gridToks_around_repeat]
  refine ⟨?_, ?_, ?_⟩
  · rw [hcols]
    simp [repeatToks]
  · intro k hk
    exact ⟨not_mem_toksBeforeMQ0 X opt pos siInfo _ k hk,
      not_mem_toksAfterIHP X opt siInfo wasNormal wasTumor _ k hk⟩
  · intro k hk
    have hb := not_mem_toksBeforeMQ0 X opt pos siInfo
      (writeSomaticIndelVcfGrid_smod X opt dopt siInfo wasNormal wasTumor) k (by
        simp only [List.mem_cons, List.mem_singleton, List.not_mem_nil, or_false] at hk ⊢
        tauto)
    have ha := not_mem_toksAfterIHP X opt siInfo wasNormal wasTumor
      (writeSomaticIndelVcfGrid_smod X opt dopt siInfo wasNormal wasTumor) k (by
        simp only [List.mem_cons, List.mem_singleton, List.not_mem_nil, or_false] at hk ⊢
        tauto)
    rw [hcols]
    simp only [List.mem_cons, List.mem_singleton, List.not_mem_nil, or_false] at hk
    rcases hk with rfl | rfl | rfl <;>
      cases hru : siInfo.iri.is_repeat_unit <;>
      simp [repeatToks, hru, hb, ha]

/-- Example of C13: a call without repeat unit writes `;IHP=` right after the MQ0 value. -/
theorem repeat_fields_example :
    repeatToks (exInfo NTYPE.REF 40 10) = [] ∧
    repeatToks { exInfo NTYPE.REF 40 10 with
        iri := { (exInfo NTYPE.REF 40 10).iri with
          is_repeat_unit := true, repeat_unit := "A", ref_repeat_count := 3,
          indel_repeat_count := 2 } } =
      [Tok.lit ";RU=", Tok.str "A", Tok.lit ";RC=", Tok.uns 3, Tok.lit ";IC=", Tok.uns 2] :=
  ⟨rfl, rfl⟩

/-- Text of operands written one after the other. -/
theorem renderToks_append (X : Externals) (a b : List Tok) :
    renderToks X (a ++ b) = renderToks X a ++ renderToks X b := by
  apply String.ext
  simp [renderToks, String.join_eq]

/-- Text of no operand. -/
theorem renderToks_nil (X : Externals) : renderToks X [] = "" := rfl

/-- Text of a first operand and of those after it. -/
theorem renderToks_cons (X : Externals) (t : Tok) (l : List Tok) :
    renderToks X (t :: l) = t.render X ++ renderToks X l := by
  apply String.ext
  simp [renderToks, String.join_eq]

/-- C14: the record starts with the chromosome name, the position plus one in decimal,
`.`, `vcf_ref_seq`, `vcf_indel_seq`, `.` and the filter list, separated by tabs, goes on
with the remaining columns, and ends with the only newline that is written. -/
theorem record_head_and_newline (X : Externals) (opt : strelka_options)
    (dopt : strelka_deriv_options) (pos : Int) (siInfo : SomaticIndelVcfInfo)
    (wasNormal wasTumor : win_avg_set) :
    ∃ rest : List Tok,
      writeSomaticIndelVcfGrid_toks X opt dopt pos siInfo wasNormal wasTumor =
        [ Tok.str opt.bam_seq_name, Tok.lit "\t", Tok.int (pos + 1), Tok.lit "\t",
          Tok.lit ".", Tok.lit "\t", Tok.str siInfo.iri.vcf_ref_seq, Tok.lit "\t",
          Tok.str siInfo.iri.vcf_indel_seq, Tok.lit "\t", Tok.lit ".", Tok.lit "\t",
          Tok.filters (writeSomaticIndelVcfGrid_smod X opt dopt siInfo wasNormal wasTumor) ]
        ++ rest ++ [Tok.lit "\n"] ∧
      Tok.lit "\n" ∉ rest ∧
      record X opt dopt pos siInfo wasNormal wasTumor =
        opt.bam_seq_name ++ "\t" ++ toString (pos + 1) ++ "\t" ++ "." ++ "\t" ++
        siInfo.iri.vcf_ref_seq ++ "\t" ++ siInfo.iri.vcf_indel_seq ++ "\t" ++ "." ++ "\t" ++
        write_filters X (writeSomaticIndelVcfGrid_smod X opt dopt siInfo wasNormal wasTumor)
        ++ renderToks X rest ++ "\n" := by
  refine ⟨[Tok.lit "\t"] ++
      infoToks X opt siInfo (writeSomaticIndelVcfGrid_smod X opt dopt siInfo wasNormal wasTumor)
      ++ [Tok.lit "\t"] ++ formatToks opt ++ [Tok.lit "\t"] ++
      write_vcf_isri_tiers X siInfo.nisri0 siInfo.nisri1 wasNormal ++ [Tok.lit "\t"] ++
      write_vcf_isri_tiers X siInfo.tisri0 siInfo.tisri1 wasTumor, ?_, ?_, ?_⟩
  · rw [writeSomaticIndelVcfGrid_toks, gridToks_columns]
    simp [headToks]
  · simp only [infoToks, repeatToks, formatToks, write_vcf_isri_tiers]
    split_ifs <;> simp
  · rw [record, writeSomaticIndelVcfGrid_toks, gridToks_columns]
    simp only [headToks, List.append_assoc, List.cons_append, List.nil_append,
      renderToks_cons, renderToks_append, renderToks_nil, Tok.render, String.append_assoc,
      String.append_empty]

/-- Example of C14: the stored position 7 is written as `8`, and -1 as `0`. -/
theorem record_pos_example :
    (Tok.int ((7 : Int) + 1)).render (exX false 0) = "8" ∧
    (Tok.int ((-1 : Int) + 1)).render (exX false 0) = "0" := by
  decide

/-- The literals of the INFO column, for each combination of the optional fields. -/
theorem litKeys_infoToks (X : Externals) (opt : strelka_options)
    (siInfo : SomaticIndelVcfInfo) (smod : strelka_shared_modifiers_indel) :
    litKeys (infoToks X opt siInfo smod) =
      ["SOMATIC"] ++ (if smod.isQscore = true then [";EQSI="] else []) ++
      [";QSI=", ";TQSI=", ";NT=", ";QSI_NT=", ";TQSI_NT=", ";SGT=", ";MQ=", ";MQ0="] ++
      (if siInfo.iri.is_repeat_unit = true then [";RU=", ";RC=", ";IC="] else []) ++
      [";IHP="] ++
      (if opt.is_use_indel_empirical_scoring = true then [";ESF="] else []) ++
      (if siInfo.iri.it = INDEL.BP_LEFT ∨ siInfo.iri.it = INDEL.BP_RIGHT then
        [";SVTYPE=BND"] else []) ++
      (if siInfo.sindel.rs.is_overlap = true then [";OVERLAP"] else []) := by
  unfold infoToks repeatToks litKeys
  split_ifs <;> simp

/-- C15: the INFO column is the eighth tab-separated column of the record; its keys are a
subsequence of the fixed order; `SOMATIC`, `QSI`, `TQSI`, `NT`, `QSI_NT`, `TQSI_NT`, `SGT`,
`MQ`, `MQ0` and `IHP` are always written; `ESF` iff empirical scoring is used,
`SVTYPE=BND` iff the indel type is `BP_LEFT` or `BP_RIGHT`, `OVERLAP` iff `rs.is_overlap`;
the values of `TQSI` and `TQSI_NT` are the stored tier plus one, as `unsigned`. -/
theorem info_keys_order (X : Externals) (opt : strelka_options)
    (dopt : strelka_deriv_options) (pos : Int) (siInfo : SomaticIndelVcfInfo)
    (wasNormal wasTumor : win_avg_set) :
    (writeSomaticIndelVcfGrid_toks X opt dopt pos siInfo wasNormal wasTumor =
      headToks opt pos siInfo
        (writeSomaticIndelVcfGrid_smod X opt dopt siInfo wasNormal wasTumor) ++
      [Tok.lit "\t"] ++
      infoToks X opt siInfo
        (writeSomaticIndelVcfGrid_smod X opt dopt siInfo wasNormal wasTumor) ++
      [Tok.lit "\t"] ++ formatToks opt ++ [Tok.lit "\t"] ++
      write_vcf_isri_tiers X siInfo.nisri0 siInfo.nisri1 wasNormal ++ [Tok.lit "\t"] ++
      write_vcf_isri_tiers X siInfo.tisri0 siInfo.tisri1 wasTumor ++ [Tok.lit "\n"]) ∧
    Tok.lit "\t" ∉ infoToks X opt siInfo
      (writeSomaticIndelVcfGrid_smod X opt dopt siInfo wasNormal wasTumor) ∧
    (litKeys (infoToks X opt siInfo
      (writeSomaticIndelVcfGrid_smod X opt dopt siInfo wasNormal wasTumor))).Sublist
        infoKeyOrder ∧
    (∀ k ∈ ["SOMATIC", ";QSI=", ";TQSI=", ";NT=", ";QSI_NT=", ";TQSI_NT=", ";SGT=", ";MQ=",
          ";MQ0=", ";IHP="],
      k ∈ litKeys (infoToks X opt siInfo
        (writeSomaticIndelVcfGrid_smod X opt dopt siInfo wasNormal wasTumor))) ∧
    (";ESF=" ∈ litKeys (infoToks X opt siInfo
        (writeSomaticIndelVcfGrid_smod X opt dopt siInfo wasNormal wasTumor)) ↔
      opt.is_use_indel_empirical_scoring = true) ∧
    (";SVTYPE=BND" ∈ litKeys (infoToks X opt siInfo
        (writeSomaticIndelVcfGrid_smod X opt dopt siInfo wasNormal wasTumor)) ↔
      (siInfo.iri.it = INDEL.BP_LEFT ∨ siInfo.iri.it = INDEL.BP_RIGHT)) ∧
    (";OVERLAP" ∈ litKeys (infoToks X opt siInfo
        (writeSomaticIndelVcfGrid_smod X opt dopt siInfo wasNormal wasTumor)) ↔
      siInfo.sindel.rs.is_overlap = true) ∧
    [Tok.lit ";TQSI=", Tok.uns (u32 (siInfo.sindel.sindel_tier + 1))] <:+:
      infoToks X opt siInfo
        (writeSomaticIndelVcfGrid_smod X opt dopt siInfo wasNormal wasTumor) ∧
    [Tok.lit ";TQSI_NT=", Tok.uns (u32 (siInfo.sindel.sindel_from_ntype_tier + 1))] <:+:
      infoToks X opt siInfo
        (writeSomaticIndelVcfGrid_smod X opt dopt siInfo wasNormal wasTumor) ∧
    (siInfo.sindel.sindel_tier + 1 < 2 ^ 32 →
      u32 (siInfo.sindel.sindel_tier + 1) = siInfo.sindel.sindel_tier + 1) ∧
    (siInfo.sindel.sindel_from_ntype_tier + 1 < 2 ^ 32 →
      u32 (siInfo.sindel.sindel_from_ntype_tier + 1)
        = siInfo.sindel.sindel_from_ntype_tier + 1) := by
  refine ⟨?_, ?_, ?_, ?_, ?_, ?_, ?_, ?_, ?_, ?_, ?_⟩
  · rw [writeSomaticIndelVcfGrid_toks, gridToks_columns]
  · unfold infoToks repeatToks
    split_ifs <;> simp
  · rw [litKeys_infoToks]
    unfold infoKeyOrder
    split_ifs <;> decide
  · intro k hk
    rw [litKeys_infoToks]
    simp only [List.mem_cons, List.mem_singleton, List.not_mem_nil, or_false] at hk
    rcases hk with rfl | rfl | rfl | rfl | rfl | rfl | rfl | rfl | rfl | rfl <;> simp
  · rw [litKeys_infoToks]
    split_ifs <;> simp_all
  · rw [litKeys_infoToks]
    split_ifs <;> simp_all
  · rw [litKeys_infoToks]
    split_ifs <;> simp_all
  · refine ⟨[Tok.lit "SOMATIC"] ++ (if (writeSomaticIndelVcfGrid_smod X opt dopt siInfo
        wasNormal wasTumor).isQscore = true then [Tok.lit ";EQSI=",
          Tok.dbl 4 (writeSomaticIndelVcfGrid_smod X opt dopt siInfo
            wasNormal wasTumor).Qscore] else []) ++
        [Tok.lit ";QSI=", Tok.int siInfo.sindel.rs.sindel_qphred], ?rest, ?eq⟩
    case eq =>
      simp only [infoToks, List.append_assoc, List.cons_append, List.nil_append]
      exact rfl
  · refine ⟨[Tok.lit "SOMATIC"] ++ (if (writeSomaticIndelVcfGrid_smod X opt dopt siInfo
        wasNormal wasTumor).isQscore = true then [Tok.lit ";EQSI=",
          Tok.dbl 4 (writeSomaticIndelVcfGrid_smod X opt dopt siInfo
            wasNormal wasTumor).Qscore] else []) ++
        [Tok.lit ";QSI=", Tok.int siInfo.sindel.rs.sindel_qphred,
         Tok.lit ";TQSI=", Tok.uns (u32 (siInfo.sindel.sindel_tier + 1)),
         Tok.lit ";NT=", Tok.str (X.NTYPE_label siInfo.sindel.rs.ntype),
         Tok.lit ";QSI_NT=", Tok.int siInfo.sindel.rs.sindel_from_ntype_qphred],
        ?rest2, ?eq2⟩
    case eq2 =>
      simp only [infoToks, List.append_assoc, List.cons_append, List.nil_append]
      exact rfl
  · intro h
    exact Nat.mod_eq_of_lt h
  · intro h
    exact Nat.mod_eq_of_lt h

/-- Example of C15: the keys of a call in legacy mode with an uninitialised model, and of
an overlapping left breakpoint in empirical mode with an initialised model; tier 0 is
written as 1. -/
theorem info_keys_example :
    litKeys (infoToks (exX false 0) (exOpt false) (exInfo NTYPE.REF 40 10)
        (writeSomaticIndelVcfGrid_smod (exX false 0) (exOpt false) exDopt
          (exInfo NTYPE.REF 40 10) exQuiet exQuiet)) =
      ["SOMATIC", ";QSI=", ";TQSI=", ";NT=", ";QSI_NT=", ";TQSI_NT=", ";SGT=", ";MQ=",
       ";MQ0=", ";IHP="] ∧
    litKeys (infoToks (exX true (4 / 5)) (exOpt true)
        { exInfo NTYPE.REF 40 10 with
          iri := { (exInfo NTYPE.REF 40 10).iri with it := INDEL.BP_LEFT },
          sindel := { (exInfo NTYPE.REF 40 10).sindel with
            rs := { (exInfo NTYPE.REF 40 10).sindel.rs with is_overlap := true } } }
        { strelka_shared_modifiers_indel.init with isQscore := true }) =
      ["SOMATIC", ";EQSI=", ";QSI=", ";TQSI=", ";NT=", ";QSI_NT=", ";TQSI_NT=", ";SGT=",
       ";MQ=", ";MQ0=", ";IHP=", ";ESF=", ";SVTYPE=BND", ";OVERLAP"] ∧
    u32 ((exInfo NTYPE.REF 40 10).sindel.sindel_tier + 1) = 1 := by
  refine ⟨?_, ?_, by decide⟩
  · rw [litKeys_infoToks]
    simp [writeSomaticIndelVcfGrid_smod, smodMode_isQscore, smodScore_isQscore,
      smodDepth_isQscore, exX, exOpt, exInfo]
  · rw [litKeys_infoToks]
    simp [exOpt, exInfo, strelka_shared_modifiers_indel.init]

/-- C16: after the INFO column the record holds the FORMAT column, whose text is the key
list `DP:DP2:TAR:TIR:TOR:AF:OF:SOR:FS:BSA:RR`, `:BCN` and the flank size in decimal, then
the block of the normal sample (from `nisri` and `wasNormal`), then the block of the tumor
sample (from `tisri` and `wasTumor`); the text of a block starts with the tier1 depth, the
tier2 depth and the pairs `tier1,tier2` of ref+alt, indel and other reads, joined by `:`. -/
theorem format_and_samples (X : Externals) (opt : strelka_options)
    (dopt : strelka_deriv_options) (pos : Int) (siInfo : SomaticIndelVcfInfo)
    (wasNormal wasTumor : win_avg_set) :
    (writeSomaticIndelVcfGrid_toks X opt dopt pos siInfo wasNormal wasTumor =
      headToks opt pos siInfo
        (writeSomaticIndelVcfGrid_smod X opt dopt siInfo wasNormal wasTumor) ++
      [Tok.lit "\t"] ++
      infoToks X opt siInfo
        (writeSomaticIndelVcfGrid_smod X opt dopt siInfo wasNormal wasTumor) ++
      [Tok.lit "\t"] ++
      [Tok.lit "DP:DP2:TAR:TIR:TOR:AF:OF:SOR:FS:BSA:RR", Tok.lit ":BCN",
        Tok.uns opt.indelRegionFlankSize] ++
      [Tok.lit "\t"] ++
      write_vcf_isri_tiers X siInfo.nisri0 siInfo.nisri1 wasNormal ++ [Tok.lit "\t"] ++
      write_vcf_isri_tiers X siInfo.tisri0 siInfo.tisri1 wasTumor ++ [Tok.lit "\n"]) ∧
    (∃ before : String,
      record X opt dopt pos siInfo wasNormal wasTumor =
        before ++ "\t" ++
        ("DP:DP2:TAR:TIR:TOR:AF:OF:SOR:FS:BSA:RR" ++ ":BCN" ++
          toString opt.indelRegionFlankSize) ++ "\t" ++
        renderToks X (write_vcf_isri_tiers X siInfo.nisri0 siInfo.nisri1 wasNormal) ++ "\t" ++
        renderToks X (write_vcf_isri_tiers X siInfo.tisri0 siInfo.tisri1 wasTumor) ++ "\n") ∧
    (∀ (isri1 isri2 : starling_indel_sample_report_info) (was : win_avg_set),
      renderToks X (write_vcf_isri_tiers X isri1 isri2 was) =
        toString isri1.depth ++ ":" ++ toString isri2.depth ++ ":" ++
        toString (u32 (isri1.n_q30_ref_reads + isri1.n_q30_alt_reads)) ++ "," ++
        toString (u32 (isri2.n_q30_ref_reads + isri2.n_q30_alt_reads)) ++ ":" ++
        toString isri1.n_q30_indel_reads ++ "," ++ toString isri2.n_q30_indel_reads ++ ":" ++
        toString isri1.n_other_reads ++ "," ++ toString isri2.n_other_reads ++
        ":" ++ X.fmtFixed 3 (X.calculateIndelAF isri1) ++
        ":" ++ X.fmtFixed 3 (X.calculateIndelOF isri1) ++
        ":" ++ X.fmtFixed 3 (X.calculateSOR isri1) ++
        ":" ++ X.fmtFixed 3 (X.calculateFS isri1) ++
        ":" ++ X.fmtFixed 3 (X.calculateBSA isri1) ++
        ":" ++ X.fmtFixed 3 isri1.readpos_ranksum_u_stat ++
        ":" ++ X.fmtFixed 3 (X.calculateBCNoise was)) ∧
    (∀ a b : Nat, a + b < 2 ^ 32 → u32 (a + b) = a + b) := by
  refine ⟨?_, ?_, ?_, ?_⟩
  · rw [writeSomaticIndelVcfGrid_toks, gridToks_columns]
    rfl
  · refine ⟨renderToks X (headToks opt pos siInfo
        (writeSomaticIndelVcfGrid_smod X opt dopt siInfo wasNormal wasTumor)) ++ "\t" ++
      renderToks X (infoToks X opt siInfo
        (writeSomaticIndelVcfGrid_smod X opt dopt siInfo wasNormal wasTumor)), ?_⟩
    rw [record, writeSomaticIndelVcfGrid_toks, gridToks_columns]
    simp only [formatToks, List.append_assoc, List.cons_append, List.nil_append,
      renderToks_cons, renderToks_append, renderToks_nil, Tok.render, String.append_assoc,
      String.append_empty]
  · intro isri1 isri2 was
    simp only [write_vcf_isri_tiers, renderToks_cons, renderToks_nil, Tok.render,
      String.append_assoc, String.append_empty]
  · intro a b h
    exact Nat.mod_eq_of_lt h

/-- Example of C16: the FORMAT column for flank size 50, and the start of a sample block
with depths 12 and 15. -/
theorem format_and_samples_example :
    renderToks (exX false 0) (formatToks (exOpt false)) =
      "DP:DP2:TAR:TIR:TOR:AF:OF:SOR:FS:BSA:RR:BCN50" ∧
    renderToks (exX false 0)
        (write_vcf_isri_tiers (exX false 0)
          { exIsri 12 with n_q30_ref_reads := 7, n_q30_alt_reads := 2, n_q30_indel_reads := 3 }
          { exIsri 15 with n_q30_ref_reads := 8, n_q30_alt_reads := 2, n_q30_indel_reads := 4,
                           n_other_reads := 1 } exQuiet) =
      "12:15:9,10:3,4:0,1:0:0:0:0:0:0:0" := by
  decide

/-- Colons of a text made of two parts. -/
theorem colonCount_append (a b : String) :
    colonCount (a ++ b) = colonCount a + colonCount b := by
  simp [colonCount]

/-- Colons of the text of a sequence of operands of which only the literals have any. -/
theorem colonCount_renderToks (X : Externals) (ts : List Tok)
    (h : ∀ t ∈ ts, t.isLit = false → colonCount (t.render X) = 0) :
    colonCount (renderToks X ts) = ((litKeys ts).map colonCount).sum := by
  induction ts with
  | nil => rfl
  | cons t ts ih =>
    have ih' := ih (fun u hu => h u (List.mem_cons_of_mem _ hu))
    have ht := h t (List.mem_cons_self _ _)
    rw [renderToks_cons, colonCount_append, ih']
    cases t <;> simp_all [litKeys, Tok.isLit, Tok.render]

/-- C19: when the rendering of no numeric value has a colon, the FORMAT column has as
many `:`-separated keys as the block of the normal sample and the block of the tumor
sample have `:`-separated values, namely 12. -/
theorem format_field_counts (X : Externals) (opt : strelka_options)
    (siInfo : SomaticIndelVcfInfo) (wasNormal wasTumor : win_avg_set)
    (hflank : ∀ t ∈ formatToks opt, t.isLit = false → colonCount (t.render X) = 0)
    (hnormal : ∀ t ∈ write_vcf_isri_tiers X siInfo.nisri0 siInfo.nisri1 wasNormal,
      t.isLit = false → colonCount (t.render X) = 0)
    (htumor : ∀ t ∈ write_vcf_isri_tiers X siInfo.tisri0 siInfo.tisri1 wasTumor,
      t.isLit = false → colonCount (t.render X) = 0) :
    colonFields (renderToks X (formatToks opt)) = 12 ∧
    colonFields (renderToks X
      (write_vcf_isri_tiers X siInfo.nisri0 siInfo.nisri1 wasNormal)) = 12 ∧
    colonFields (renderToks X
      (write_vcf_isri_tiers X siInfo.tisri0 siInfo.tisri1 wasTumor)) = 12 := by
  have hkeys : litKeys (formatToks opt) =
      ["DP:DP2:TAR:TIR:TOR:AF:OF:SOR:FS:BSA:RR", ":BCN"] := rfl
  have hblock : ∀ (isri1 isri2 : starling_indel_sample_report_info) (was : win_avg_set),
      litKeys (write_vcf_isri_tiers X isri1 isri2 was) =
        [":", ":", ",", ":", ",", ":", ",", ":", ":", ":", ":", ":", ":", ":"] :=
    fun _ _ _ => rfl
  refine ⟨?_, ?_, ?_⟩
  · rw [colonFields, colonCount_renderToks X _ hflank, hkeys]
    decide
  · rw [colonFields, colonCount_renderToks X _ hnormal, hblock]
    decide
  · rw [colonFields, colonCount_renderToks X _ htumor, hblock]
    decide

/-- Witness of C19: flank size 50 and sample records of depth 10, with numbers rendered
in decimal. -/
theorem format_field_counts_witness :
    (∀ t ∈ formatToks (exOpt false),
      t.isLit = false → colonCount (t.render (exX false 0)) = 0) ∧
    colonFields (renderToks (exX false 0) (formatToks (exOpt false))) = 12 ∧
    colonFields (renderToks (exX false 0)
      (write_vcf_isri_tiers (exX false 0) (exInfo NTYPE.REF 40 10).nisri0
        (exInfo NTYPE.REF 40 10).nisri1 exQuiet)) = 12 ∧
    colonFields (renderToks (exX false 0)
      (write_vcf_isri_tiers (exX false 0) (exInfo NTYPE.REF 40 10).tisri0
        (exInfo NTYPE.REF 40 10).tisri1 exNoisy)) = 12 :=
  ⟨by decide,
   format_field_counts (exX false 0) (exOpt false) (exInfo NTYPE.REF 40 10) exQuiet exNoisy
     (by decide) (by decide) (by decide)⟩

/-! ## Frame of the cache operations -/

/-- A successful `addIndelWindowData(p, ...)` changes the cache at `p` only. -/
theorem addIndelWindowData_data_ne (X : Externals) (w w' : SomaticIndelVcfWriter)
    (p q : Int) (wasNormal wasTumor : win_avg_set) (hpq : p ≠ q)
    (h : addIndelWindowData X w p wasNormal wasTumor = Outcome.returned w') :
    w'._data q = w._data q := by
  cases h0 : w._data p with
  | none =>
    rw [addIndelWindowData_of_none X w p wasNormal wasTumor h0] at h
    cases h
  | some v =>
    rw [addIndelWindowData_of_some X w p wasNormal wasTumor v h0] at h
    injection h with hw
    subst hw
    simp [IndelCache.erase, Ne.symm hpq]

/-- A run without `addIndelWindowData(q, ...)` keeps the calls cached at `q`, in order,
at the head of the sequence at `q`. -/
theorem runOps_keeps (X : Externals) (q : Int) (ops : List CacheOp)
    (hops : ∀ op ∈ ops, op.resolves q = false) (w : SomaticIndelVcfWriter)
    (v : List SomaticIndelVcfInfo) (hv : w._data q = some v) :
    ∃ v', (runOps X w ops).state._data q = some v' ∧ v <+: v' := by
  induction ops generalizing w v with
  | nil => exact ⟨v, hv, List.prefix_refl v⟩
  | cons op ops ih =>
    have hrest : ∀ o ∈ ops, o.resolves q = false :=
      fun o ho => hops o (List.mem_cons_of_mem _ ho)
    have hop := hops op (List.mem_cons_self _ _)
    cases op with
    | cacheIndel p c =>
      simp only [runOps]
      by_cases hp : q = p
      · subst hp
        have h1 : (cacheIndel w q c)._data q = some (v ++ [c]) := by
          simp [cacheIndel_data, cachedAt, hv]
        obtain ⟨v', hv', hpre⟩ := ih hrest (cacheIndel w q c) (v ++ [c]) h1
        exact ⟨v', hv', (List.prefix_append v [c]).trans hpre⟩
      · have h1 : (cacheIndel w p c)._data q = some v := by
          simp [cacheIndel_data, hp, hv]
        exact ih hrest (cacheIndel w p c) v h1
    | addIndelWindowData p wasNormal wasTumor =>
      have hpq : p ≠ q := by simpa [CacheOp.resolves] using hop
      simp only [runOps]
      cases hstep : addIndelWindowData X w p wasNormal wasTumor with
      | returned w' =>
        have h1 : w'._data q = some v := by
          rw [addIndelWindowData_data_ne X w w' p q wasNormal wasTumor hpq hstep, hv]
        exact ih hrest w' v h1
      | assertFailed w' =>
        have hw : w' = w := by
          cases h0 : w._data p with
          | none =>
            rw [addIndelWindowData_of_none X w p wasNormal wasTumor h0] at hstep
            injection hstep with h
            exact h.symm
          | some v0 =>
            rw [addIndelWindowData_of_some X w p wasNormal wasTumor v0 h0] at hstep
            cases hstep
        subst hw
        exact ⟨v, hv, List.prefix_refl v⟩

/-- C17: for positions `p ≠ q`, `cacheIndel(p, call)` and a successful
`addIndelWindowData(p, ...)` leave the sequence cached at `q` as it is; `cacheIndel(p,
call)` keeps the calls already cached at `p` as a prefix; and through any run of calls
none of which is `addIndelWindowData(q, ...)` the calls cached at `q` stay cached, in
order. -/
theorem cache_frame (X : Externals) (w : SomaticIndelVcfWriter) (p q : Int) (hpq : p ≠ q) :
    (∀ c, (cacheIndel w p c)._data q = w._data q) ∧
    (∀ wasNormal wasTumor w', addIndelWindowData X w p wasNormal wasTumor
        = Outcome.returned w' → w'._data q = w._data q) ∧
    (∀ c, cachedAt (cacheIndel w p c) p = cachedAt w p ++ [c] ∧
      cachedAt w p <+: cachedAt (cacheIndel w p c) p) ∧
    (∀ (ops : List CacheOp) (v : List SomaticIndelVcfInfo),
      (∀ op ∈ ops, op.resolves q = false) → w._data q = some v →
      ∃ v', (runOps X w ops).state._data q = some v' ∧ v <+: v') := by
  refine ⟨fun c => ?_, fun wasNormal wasTumor w' h => ?_, fun c => ?_,
    fun ops v hops hv => runOps_keeps X q ops hops w v hv⟩
  · simp [cacheIndel_data, Ne.symm hpq]
  · exact addIndelWindowData_data_ne X w w' p q wasNormal wasTumor hpq h
  · rw [cachedAt_cacheIndel]
    exact ⟨rfl, List.prefix_append _ _⟩

/-- Witness of C17: a call cached at 7 stays first at 7 while position 3 is cached and
resolved and 7 is cached again. -/
theorem cache_frame_witness :
    (3 : Int) ≠ 7 ∧
    (cacheIndel (exWriter "") 7 (exInfo NTYPE.REF 25 10))._data 7
      = some [exInfo NTYPE.REF 25 10] ∧
    ∃ v', (runOps (exX false 0) (cacheIndel (exWriter "") 7 (exInfo NTYPE.REF 25 10))
        [CacheOp.cacheIndel 3 (exInfo NTYPE.REF 40 40),
         CacheOp.addIndelWindowData 3 exQuiet exQuiet,
         CacheOp.cacheIndel 7 (exInfo NTYPE.REF 40 40)]).state._data 7 = some v' ∧
      [exInfo NTYPE.REF 25 10] <+: v' :=
  ⟨by decide, rfl,
   (cache_frame (exX false 0) (cacheIndel (exWriter "") 7 (exInfo NTYPE.REF 25 10)) 3 7
      (by decide)).2.2.2
      [CacheOp.cacheIndel 3 (exInfo NTYPE.REF 40 40),
       CacheOp.addIndelWindowData 3 exQuiet exQuiet,
       CacheOp.cacheIndel 7 (exInfo NTYPE.REF 40 40)]
      [exInfo NTYPE.REF 25 10] (by decide) rfl⟩

/-! ## Empirical mode without a model -/

/-- Text of `write_filters` for a filter set that is not empty. -/
theorem write_filters_of_mem (X : Externals) (smod : strelka_shared_modifiers_indel)
    (f : STRELKA_VCF_FILTERS) (hf : smod.filters f = true) :
    f ∈ filterOrder.filter smod.filters ∧
    write_filters X smod =
      ";".intercalate ((filterOrder.filter smod.filters).map X.filter_label) := by
  have hmem : f ∈ filterOrder.filter smod.filters := by
    rw [List.mem_filter]
    refine ⟨?_, hf⟩
    cases f <;> simp [filterOrder]
  refine ⟨hmem, ?_⟩
  unfold write_filters
  cases hl : filterOrder.filter smod.filters with
  | nil => rw [hl] at hmem; cases hmem
  | cons a l => rfl

/-- C18: in empirical mode with an uninitialised model the score is 0 and `LowQscore` is
set iff `0 < score_threshold(INDEL)`; with a positive threshold every call has a filter
set that is not empty, so `write_filters` takes the branch that lists labels and not the
`PASS` branch; no `;EQSI=` is written. -/
theorem lowQscore_without_model (X : Externals) (opt : strelka_options)
    (dopt : strelka_deriv_options) (pos : Int) (siInfo : SomaticIndelVcfInfo)
    (wasNormal wasTumor : win_avg_set)
    (hmode : opt.is_use_indel_empirical_scoring = true)
    (hinit : X.isVariantScoringInit = false) :
    (writeSomaticIndelVcfGrid_smod X opt dopt siInfo wasNormal wasTumor).Qscore = Dbl.zero ∧
    ((writeSomaticIndelVcfGrid_smod X opt dopt siInfo wasNormal wasTumor).filters
        STRELKA_VCF_FILTERS.LowQscore = true ↔
      Dbl.lt Dbl.zero X.score_threshold = true) ∧
    (Dbl.lt Dbl.zero X.score_threshold = true →
      STRELKA_VCF_FILTERS.LowQscore ∈ filterOrder.filter
        (writeSomaticIndelVcfGrid_smod X opt dopt siInfo wasNormal wasTumor).filters ∧
      write_filters X (writeSomaticIndelVcfGrid_smod X opt dopt siInfo wasNormal wasTumor) =
        ";".intercalate ((filterOrder.filter
          (writeSomaticIndelVcfGrid_smod X opt dopt siInfo wasNormal wasTumor).filters).map
            X.filter_label)) ∧
    Tok.lit ";EQSI=" ∉
      writeSomaticIndelVcfGrid_toks X opt dopt pos siInfo wasNormal wasTumor := by
  have hq : (writeSomaticIndelVcfGrid_smod X opt dopt siInfo wasNormal wasTumor).Qscore
      = Dbl.zero := by
    simp [writeSomaticIndelVcfGrid_smod, smodMode_Qscore, smodScore_Qscore, hinit]
  have hiff : (writeSomaticIndelVcfGrid_smod X opt dopt siInfo wasNormal wasTumor).filters
        STRELKA_VCF_FILTERS.LowQscore = true ↔
      Dbl.lt Dbl.zero X.score_threshold = true := by
    simp [writeSomaticIndelVcfGrid_smod, smodMode_filters, smodScore_filters,
      smodDepth_filters, smodScore_Qscore, hmode, hinit]
  have hpres : (writeSomaticIndelVcfGrid_smod X opt dopt siInfo wasNormal wasTumor).isQscore
      = false := by
    simp [writeSomaticIndelVcfGrid_smod, smodMode_isQscore, smodScore_isQscore,
      smodDepth_isQscore, hinit]
  refine ⟨hq, hiff, fun hthr => write_filters_of_mem X _ _ (hiff.2 hthr), ?_⟩
  simp [writeSomaticIndelVcfGrid_toks, gridToks, write_vcf_isri_tiers, hpres]

/-- Witness of C18: empirical mode, uninitialised model, threshold 1/2; the call then
carries `LowQscore`. -/
theorem lowQscore_without_model_witness :
    (exOpt true).is_use_indel_empirical_scoring = true ∧
    (exX false 0).isVariantScoringInit = false ∧
    Dbl.lt Dbl.zero (exX false 0).score_threshold = true ∧
    (writeSomaticIndelVcfGrid_smod (exX false 0) (exOpt true) exDopt
        (exInfo NTYPE.REF 40 10) exQuiet exQuiet).filters
          STRELKA_VCF_FILTERS.LowQscore = true :=
  ⟨rfl, rfl, by simp [Dbl.lt, Dbl.zero, exX],
   (lowQscore_without_model (exX false 0) (exOpt true) exDopt 7 (exInfo NTYPE.REF 40 10)
      exQuiet exQuiet rfl rfl).2.1.2 (by simp [Dbl.lt, Dbl.zero, exX])⟩

end Strelka
